import Mathlib

/-! Learn-DD: the Vulkan memory pool (`include/dd/vk/vk_memorypool.hpp`)

A shallow embedding of `dd::vk::MemoryPool`.  Handles, pointers and sizes are
natural numbers (`0` is the null handle / `nullptr`).  Every call into the
Vulkan driver is appended to an explicit call trace, and the driver's replies
are given by a `Driver` record whose answers may depend on the whole history
of calls issued so far.
-/

namespace dd.vk

/-! ## Vulkan constants used by the pool (values of the Vulkan headers) -/

/-- The Vulkan result code `VK_SUCCESS`. -/
def VK_SUCCESS : Nat := 0

/-- The Vulkan memory property bit `VK_MEMORY_PROPERTY_DEVICE_LOCAL_BIT`. -/
def VK_MEMORY_PROPERTY_DEVICE_LOCAL_BIT : Nat := 1

/-- The Vulkan memory property bit `VK_MEMORY_PROPERTY_HOST_VISIBLE_BIT`. -/
def VK_MEMORY_PROPERTY_HOST_VISIBLE_BIT : Nat := 2

/-- The Vulkan memory property bit `VK_MEMORY_PROPERTY_HOST_COHERENT_BIT`. -/
def VK_MEMORY_PROPERTY_HOST_COHERENT_BIT : Nat := 4

/-- The Vulkan buffer usage bit `VK_BUFFER_USAGE_TRANSFER_SRC_BIT`. -/
def VK_BUFFER_USAGE_TRANSFER_SRC_BIT : Nat := 1

/-- The Vulkan buffer usage bit `VK_BUFFER_USAGE_TRANSFER_DST_BIT`. -/
def VK_BUFFER_USAGE_TRANSFER_DST_BIT : Nat := 2

/-- The Vulkan sharing mode `VK_SHARING_MODE_EXCLUSIVE`. -/
def VK_SHARING_MODE_EXCLUSIVE : Nat := 0

/-- The Vulkan handle type `VK_EXTERNAL_MEMORY_HANDLE_TYPE_HOST_ALLOCATION_BIT_EXT`. -/
def VK_EXTERNAL_MEMORY_HANDLE_TYPE_HOST_ALLOCATION_BIT_EXT : Nat := 128

/-- The Vulkan error `VK_ERROR_INVALID_EXTERNAL_HANDLE` (-1000072003) as stored in a `u32`. -/
def VK_ERROR_INVALID_EXTERNAL_HANDLE : Nat := 4294967296 - 1000072003

/-! ## Data model -/

/-- The `struct MemoryPoolInfo` (lines 5-9): the caller's configuration. -/
structure MemoryPoolInfo where
  size : Nat
  memory_property_flags : Nat
  import_memory : Nat
  deriving DecidableEq, Repr

/-- Modelled from the spec: the `Context` class is declared outside the available
sources; the pool only uses its accessors for the logical device handle and the
graphics queue family index, and its query for the memory-type index that
satisfies a property-flag set (`-1` when there is none). -/
structure Context where
  GetDevice : Nat
  GetGraphicsQueueFamily : Nat
  FindMemoryHeapIndex : Nat → Int

/-- The Vulkan `VkImportMemoryHostPointerInfoEXT` as filled in at lines 65-69. -/
structure VkImportMemoryHostPointerInfoEXT where
  handleType : Nat
  pHostPointer : Nat
  deriving DecidableEq, Repr

/-- The Vulkan `VkMemoryAllocateInfo` as filled in at lines 54-58 and 70-75; `pNext`
is the chained import structure when there is one. -/
structure VkMemoryAllocateInfo where
  pNext : Option VkImportMemoryHostPointerInfoEXT
  allocationSize : Nat
  memoryTypeIndex : Nat
  deriving DecidableEq, Repr

/-- The Vulkan `VkBufferCreateInfo` as filled in at lines 109-116 and 124-131;
`pQueueFamilyIndices` holds the indices the pointer refers to. -/
structure VkBufferCreateInfo where
  size : Nat
  usage : Nat
  sharingMode : Nat
  queueFamilyIndexCount : Nat
  pQueueFamilyIndices : List Nat
  deriving DecidableEq, Repr

/-- The Vulkan `VkBufferCopy` region (lines 139-141). -/
structure VkBufferCopy where
  srcOffset : Nat
  dstOffset : Nat
  size : Nat
  deriving DecidableEq, Repr

/-- One call into the Vulkan driver, with the arguments the pool passes. -/
inductive NativeCall where
  | vkGetMemoryHostPointerPropertiesEXT (device handleType pHostPointer : Nat)
  | vkAllocateMemory (device : Nat) (pAllocateInfo : VkMemoryAllocateInfo)
  | vkFreeMemory (device memory : Nat)
  | vkCreateBuffer (device : Nat) (pCreateInfo : VkBufferCreateInfo)
  | vkDestroyBuffer (device buffer : Nat)
  | vkBindBufferMemory (device buffer memory memoryOffset : Nat)
  | vkCmdCopyBuffer (commandBuffer srcBuffer dstBuffer regionCount : Nat)
      (pRegions : List VkBufferCopy)
  deriving DecidableEq, Repr

/-- The replies of the Vulkan driver.  Each reply may depend on the calls issued
before it (first argument).  A reply with an out-parameter is a pair of the
result code (as the `u32` the pool stores it in) and the value left in the
out-parameter. -/
structure Driver where
  vkGetMemoryHostPointerPropertiesEXT : List NativeCall → Nat → Nat → Nat → Nat × Nat
  vkAllocateMemory : List NativeCall → Nat → VkMemoryAllocateInfo → Nat × Nat
  vkCreateBuffer : List NativeCall → Nat → VkBufferCreateInfo → Nat × Nat
  vkBindBufferMemory : List NativeCall → Nat → Nat → Nat → Nat → Nat

/-- The fields of `class MemoryPool` (lines 13-22), together with the two members
the methods use without a declaration: `m_host_size` (written at line 29) and
`m_requires_relocation` (lines 43, 47, 102, 106, 143).  `m_parent_context` holds
the context the stored pointer refers to. -/
structure MemoryPool where
  m_vk_host_memory : Nat
  m_vk_device_memory : Nat
  m_vk_host_buffer : Nat
  m_vk_device_buffer : Nat
  m_parent_context : Context
  m_vk_memory_property_flags : Nat
  m_requires_staging : Bool
  m_is_device_memory : Bool
  m_host_pointer : Nat
  m_size : Nat
  m_host_size : Nat
  m_requires_relocation : Bool

/-- How a method ended: it returned, or the `DD_ASSERT` at the given source line failed. -/
inductive Status where
  | ok
  | assertFailed (line : Nat)
  deriving DecidableEq, Repr

/-- The result of running a method: how it ended, the fields of the pool at that
point, and the driver calls issued so far. -/
structure Outcome where
  status : Status
  pool : MemoryPool
  trace : List NativeCall

/-- Modelled from the spec: the `DD_ASSERT` macro is declared outside the available
sources.  A failure is fatal and aborts the operation: when the asserted
condition is false the method stops at that line, otherwise it continues. -/
def DD_ASSERT (line : Nat) (cond : Bool) (self : MemoryPool) (trace : List NativeCall)
    (continuation : Outcome) : Outcome :=
  if cond then continuation else ⟨Status.assertFailed line, self, trace⟩

/-- The conversion of an `s32` value to the `u32` field `memoryTypeIndex`. -/
def s32ToU32 (value : Int) : Nat := (value % 4294967296).toNat

/-! ## The methods of `MemoryPool` -/

/-- `MemoryPool::Initialize` (lines 25-78). -/
def MemoryPool.Initialize (drv : Driver) (context : Context) (pool_info : MemoryPoolInfo)
    (self : MemoryPool) (trace : List NativeCall) : Outcome :=
  DD_ASSERT 26 (pool_info.import_memory == 0) self trace <|
  let pool_properties := pool_info.memory_property_flags
  let self1 : MemoryPool :=
    { self with
      m_host_size := pool_info.size
      m_parent_context := context
      m_vk_memory_property_flags := pool_properties }
  /- Check host pointer memory properties -/
  let reply0 :=
    drv.vkGetMemoryHostPointerPropertiesEXT trace context.GetDevice 0 pool_info.import_memory
  let trace1 := trace ++
    [NativeCall.vkGetMemoryHostPointerPropertiesEXT context.GetDevice 0 pool_info.import_memory]
  let result0 := reply0.1
  let memoryTypeBits := reply0.2
  DD_ASSERT 36 (result0 != 0) self1 trace1 <|
  /- Line 39: `==` binds tighter than `|`, so the asserted value is
     `((bits & (VISIBLE | COHERENT)) == VISIBLE) | COHERENT`. -/
  DD_ASSERT 39
    (((if (memoryTypeBits &&&
            (VK_MEMORY_PROPERTY_HOST_VISIBLE_BIT ||| VK_MEMORY_PROPERTY_HOST_COHERENT_BIT))
          == VK_MEMORY_PROPERTY_HOST_VISIBLE_BIT then 1 else 0)
        ||| VK_MEMORY_PROPERTY_HOST_COHERENT_BIT) != 0) self1 trace1 <|
  /- Lines 62-77, reached from both branches. -/
  let createHostMemory (self2 : MemoryPool) (trace2 : List NativeCall)
      (host_memory_type : Int) : Outcome :=
    DD_ASSERT 62 (host_memory_type != -1) self2 trace2 <|
    let host_info : VkImportMemoryHostPointerInfoEXT :=
      { handleType := VK_EXTERNAL_MEMORY_HANDLE_TYPE_HOST_ALLOCATION_BIT_EXT
        pHostPointer := pool_info.import_memory }
    let host_allocate_info : VkMemoryAllocateInfo :=
      { pNext := some host_info
        allocationSize := pool_info.size
        memoryTypeIndex := s32ToU32 host_memory_type }
    let reply2 := drv.vkAllocateMemory trace2 context.GetDevice host_allocate_info
    let trace3 := trace2 ++ [NativeCall.vkAllocateMemory context.GetDevice host_allocate_info]
    let self3 : MemoryPool := { self2 with m_vk_host_memory := reply2.2 }
    DD_ASSERT 77 (reply2.1 == VK_SUCCESS) self3 trace3 <|
    ⟨Status.ok, self3, trace3⟩
  if (memoryTypeBits &&& pool_properties) == pool_properties then
    let host_memory_type := context.FindMemoryHeapIndex pool_properties
    let self2 : MemoryPool :=
      { self1 with m_requires_relocation := false, m_is_device_memory := false }
    createHostMemory self2 trace1 host_memory_type
  else
    let host_memory_type := context.FindMemoryHeapIndex
      (VK_MEMORY_PROPERTY_HOST_VISIBLE_BIT ||| VK_MEMORY_PROPERTY_HOST_COHERENT_BIT)
    let self2 : MemoryPool :=
      { self1 with m_requires_relocation := true, m_is_device_memory := true }
    /- Allocate our device memory -/
    let device_memory_type := context.FindMemoryHeapIndex pool_properties
    DD_ASSERT 52 (device_memory_type != -1) self2 trace1 <|
    let device_allocate_info : VkMemoryAllocateInfo :=
      { pNext := none
        allocationSize := pool_info.size
        memoryTypeIndex := s32ToU32 device_memory_type }
    let reply1 := drv.vkAllocateMemory trace1 context.GetDevice device_allocate_info
    let trace2 := trace1 ++ [NativeCall.vkAllocateMemory context.GetDevice device_allocate_info]
    let self3 : MemoryPool := { self2 with m_vk_device_memory := reply1.2 }
    DD_ASSERT 60 (reply1.1 == VK_SUCCESS) self3 trace2 <|
    createHostMemory self3 trace2 host_memory_type

/-- `MemoryPool::Finalize` (lines 80-98): returns the fields and the call trace
after the teardown. -/
def MemoryPool.Finalize (context : Context) (self : MemoryPool) (trace : List NativeCall) :
    MemoryPool × List NativeCall :=
  let device := context.GetDevice
  let st1 : MemoryPool × List NativeCall :=
    if self.m_vk_host_buffer != 0 then
      ({ self with m_vk_host_buffer := 0 },
        trace ++ [NativeCall.vkDestroyBuffer device self.m_vk_host_buffer])
    else (self, trace)
  let st2 : MemoryPool × List NativeCall :=
    if st1.1.m_vk_host_memory != 0 then
      ({ st1.1 with m_vk_host_memory := 0 },
        st1.2 ++ [NativeCall.vkFreeMemory device st1.1.m_vk_host_memory])
    else st1
  let st3 : MemoryPool × List NativeCall :=
    if st2.1.m_vk_device_buffer != 0 then
      ({ st2.1 with m_vk_device_buffer := 0 },
        st2.2 ++ [NativeCall.vkDestroyBuffer device st2.1.m_vk_device_buffer])
    else st2
  let st4 : MemoryPool × List NativeCall :=
    if st3.1.m_vk_device_memory != 0 then
      ({ st3.1 with m_vk_device_memory := 0 },
        st3.2 ++ [NativeCall.vkFreeMemory device st3.1.m_vk_device_memory])
    else st3
  st4

/-- `MemoryPool::GetDeviceMemory` (line 100). -/
def MemoryPool.GetDeviceMemory (self : MemoryPool) : Nat :=
  if self.m_is_device_memory == false then self.m_vk_host_memory else self.m_vk_device_memory

/-- `MemoryPool::RequiresRelocation` (line 102). -/
def MemoryPool.RequiresRelocation (self : MemoryPool) : Bool :=
  self.m_requires_relocation

/-- `MemoryPool::Relocate` (lines 104-145). -/
def MemoryPool.Relocate (drv : Driver) (vk_command_buffer : Nat) (self : MemoryPool)
    (trace : List NativeCall) : Outcome :=
  /- Copy entire memory pool to buffer without host properties -/
  if self.m_requires_relocation == true then
    /- Create staging buffers spanning host and device memory pools -/
    let device := self.m_parent_context.GetDevice
    let src_buffer_info : VkBufferCreateInfo :=
      { size := self.m_size
        usage := VK_BUFFER_USAGE_TRANSFER_SRC_BIT
        sharingMode := VK_SHARING_MODE_EXCLUSIVE
        queueFamilyIndexCount := 1
        pQueueFamilyIndices := [self.m_parent_context.GetGraphicsQueueFamily] }
    let reply0 := drv.vkCreateBuffer trace device src_buffer_info
    let trace1 := trace ++ [NativeCall.vkCreateBuffer device src_buffer_info]
    let self1 : MemoryPool := { self with m_vk_host_buffer := reply0.2 }
    DD_ASSERT 119 (reply0.1 == VK_SUCCESS) self1 trace1 <|
    let result1 :=
      drv.vkBindBufferMemory trace1 device self1.m_vk_host_buffer self1.m_vk_host_memory 0
    let trace2 := trace1 ++
      [NativeCall.vkBindBufferMemory device self1.m_vk_host_buffer self1.m_vk_host_memory 0]
    DD_ASSERT 122 (result1 == VK_SUCCESS) self1 trace2 <|
    let dst_buffer_info : VkBufferCreateInfo :=
      { size := self1.m_size
        usage := VK_BUFFER_USAGE_TRANSFER_DST_BIT
        sharingMode := VK_SHARING_MODE_EXCLUSIVE
        queueFamilyIndexCount := 1
        pQueueFamilyIndices := [self1.m_parent_context.GetGraphicsQueueFamily] }
    let reply2 := drv.vkCreateBuffer trace2 device dst_buffer_info
    let trace3 := trace2 ++ [NativeCall.vkCreateBuffer device dst_buffer_info]
    let self2 : MemoryPool := { self1 with m_vk_device_buffer := reply2.2 }
    DD_ASSERT 133 (reply2.1 == VK_SUCCESS) self2 trace3 <|
    let result3 :=
      drv.vkBindBufferMemory trace3 device self2.m_vk_device_buffer self2.m_vk_device_memory 0
    let trace4 := trace3 ++
      [NativeCall.vkBindBufferMemory device self2.m_vk_device_buffer self2.m_vk_device_memory 0]
    DD_ASSERT 136 (result3 == VK_SUCCESS) self2 trace4 <|
    /- Copy memory to device local buffer -/
    let copy_info : VkBufferCopy := { srcOffset := 0, dstOffset := 0, size := self2.m_size }
    let trace5 := trace4 ++
      [NativeCall.vkCmdCopyBuffer vk_command_buffer self2.m_vk_host_buffer
        self2.m_vk_device_buffer 1 [copy_info]]
    ⟨Status.ok, { self2 with m_requires_relocation := false }, trace5⟩
  else
    ⟨Status.ok, self, trace⟩

/-! ## Trace observers -/

/-- Whether a driver call is a memory allocation. -/
def NativeCall.isAllocation : NativeCall → Bool
  | NativeCall.vkAllocateMemory _ _ => true
  | _ => false

/-- Whether a driver call creates a buffer. -/
def NativeCall.isBufferCreation : NativeCall → Bool
  | NativeCall.vkCreateBuffer _ _ => true
  | _ => false

/-- Whether a driver call records a buffer copy. -/
def NativeCall.isCopy : NativeCall → Bool
  | NativeCall.vkCmdCopyBuffer _ _ _ _ _ => true
  | _ => false

/-- Whether a driver call releases a handle (destroys a buffer or frees memory). -/
def NativeCall.isRelease : NativeCall → Bool
  | NativeCall.vkDestroyBuffer _ _ => true
  | NativeCall.vkFreeMemory _ _ => true
  | _ => false

/-! ## Concrete collaborators used to exercise the methods -/

/-- A context with device handle 7 and queue family 0 whose memory types are:
index 0 for host-visible and host-coherent requests, index 1 for device-local. -/
def sampleContext : Context where
  GetDevice := 7
  GetGraphicsQueueFamily := 0
  FindMemoryHeapIndex := fun flags =>
    if flags = VK_MEMORY_PROPERTY_DEVICE_LOCAL_BIT then 1 else 0

/-- A driver whose host-pointer query answers with the given result code and
memory-type bits, and whose allocations, buffer creations and binds all succeed,
with fresh handles numbered by the position of the call in the trace. -/
def sampleDriver (queryResult memoryTypeBits : Nat) : Driver where
  vkGetMemoryHostPointerPropertiesEXT := fun _ _ _ _ => (queryResult, memoryTypeBits)
  vkAllocateMemory := fun trace _ _ => (VK_SUCCESS, 4096 + trace.length)
  vkCreateBuffer := fun trace _ _ => (VK_SUCCESS, 8192 + trace.length)
  vkBindBufferMemory := fun _ _ _ _ _ => VK_SUCCESS

/-- A zero-initialised pool (`MemoryPool pool{}`) whose context pointer refers to
`sampleContext`. -/
def zeroPool : MemoryPool where
  m_vk_host_memory := 0
  m_vk_device_memory := 0
  m_vk_host_buffer := 0
  m_vk_device_buffer := 0
  m_parent_context := sampleContext
  m_vk_memory_property_flags := 0
  m_requires_staging := false
  m_is_device_memory := false
  m_host_pointer := 0
  m_size := 0
  m_host_size := 0
  m_requires_relocation := false

/-- A driver like `sampleDriver` with a failing host-pointer query and memory-type
bits 6, except that it refuses to create a copy-destination buffer
(`VK_ERROR_OUT_OF_DEVICE_MEMORY`, -2, as stored in a `u32`). -/
def refusingDriver : Driver where
  vkGetMemoryHostPointerPropertiesEXT := fun _ _ _ _ => (VK_ERROR_INVALID_EXTERNAL_HANDLE, 6)
  vkAllocateMemory := fun trace _ _ => (VK_SUCCESS, 4096 + trace.length)
  vkCreateBuffer := fun trace _ info =>
    if info.usage = VK_BUFFER_USAGE_TRANSFER_DST_BIT then (4294967294, 0)
    else (VK_SUCCESS, 8192 + trace.length)
  vkBindBufferMemory := fun _ _ _ _ _ => VK_SUCCESS

/-! ## The driver calls of `Initialize` -/

/-- The host-pointer query `Initialize` issues at line 35. -/
def MemoryPool.Initialize.queryCall (context : Context) (pool_info : MemoryPoolInfo) :
    NativeCall :=
  NativeCall.vkGetMemoryHostPointerPropertiesEXT context.GetDevice 0 pool_info.import_memory

/-- The `device_allocate_info` of lines 54-58: no chained structure, the configured
size, and the index found for the desired property flags. -/
def MemoryPool.Initialize.device_allocate_info (context : Context)
    (pool_info : MemoryPoolInfo) : VkMemoryAllocateInfo :=
  { pNext := none
    allocationSize := pool_info.size
    memoryTypeIndex := s32ToU32 (context.FindMemoryHeapIndex pool_info.memory_property_flags) }

/-- The `host_allocate_info` of lines 65-75 for a given `host_memory_type`: the import
structure for the host pointer chained in, and the configured size. -/
def MemoryPool.Initialize.host_allocate_info (pool_info : MemoryPoolInfo)
    (host_memory_type : Int) : VkMemoryAllocateInfo :=
  { pNext := some
      { handleType := VK_EXTERNAL_MEMORY_HANDLE_TYPE_HOST_ALLOCATION_BIT_EXT
        pHostPointer := pool_info.import_memory }
    allocationSize := pool_info.size
    memoryTypeIndex := s32ToU32 host_memory_type }

/-! ## The setup steps of `Relocate` -/

/-- The `src_buffer_info` of lines 109-116. -/
def MemoryPool.Relocate.src_buffer_info (self : MemoryPool) : VkBufferCreateInfo :=
  { size := self.m_size
    usage := VK_BUFFER_USAGE_TRANSFER_SRC_BIT
    sharingMode := VK_SHARING_MODE_EXCLUSIVE
    queueFamilyIndexCount := 1
    pQueueFamilyIndices := [self.m_parent_context.GetGraphicsQueueFamily] }

/-- The `dst_buffer_info` of lines 124-131. -/
def MemoryPool.Relocate.dst_buffer_info (self : MemoryPool) : VkBufferCreateInfo :=
  { size := self.m_size
    usage := VK_BUFFER_USAGE_TRANSFER_DST_BIT
    sharingMode := VK_SHARING_MODE_EXCLUSIVE
    queueFamilyIndexCount := 1
    pQueueFamilyIndices := [self.m_parent_context.GetGraphicsQueueFamily] }

/-- The `result0` of line 118: the driver's answer to the creation of the copy-source
buffer, asked after the calls of `trace`. -/
def MemoryPool.Relocate.result0 (drv : Driver) (self : MemoryPool)
    (trace : List NativeCall) : Nat :=
  (drv.vkCreateBuffer trace self.m_parent_context.GetDevice
    (MemoryPool.Relocate.src_buffer_info self)).1

/-- The handle line 118 stores in `m_vk_host_buffer`. -/
def MemoryPool.Relocate.host_buffer (drv : Driver) (self : MemoryPool)
    (trace : List NativeCall) : Nat :=
  (drv.vkCreateBuffer trace self.m_parent_context.GetDevice
    (MemoryPool.Relocate.src_buffer_info self)).2

/-- The `result1` of line 121: the driver's answer to the bind of the copy-source
buffer to the host memory, asked after the call of line 118. -/
def MemoryPool.Relocate.result1 (drv : Driver) (self : MemoryPool)
    (trace : List NativeCall) : Nat :=
  drv.vkBindBufferMemory
    (trace ++ [NativeCall.vkCreateBuffer self.m_parent_context.GetDevice
      (MemoryPool.Relocate.src_buffer_info self)])
    self.m_parent_context.GetDevice (MemoryPool.Relocate.host_buffer drv self trace)
    self.m_vk_host_memory 0

/-- The `result2` of line 132: the driver's answer to the creation of the
copy-destination buffer, asked after the calls of lines 118 and 121. -/
def MemoryPool.Relocate.result2 (drv : Driver) (self : MemoryPool)
    (trace : List NativeCall) : Nat :=
  (drv.vkCreateBuffer
    (trace ++ [NativeCall.vkCreateBuffer self.m_parent_context.GetDevice
        (MemoryPool.Relocate.src_buffer_info self),
      NativeCall.vkBindBufferMemory self.m_parent_context.GetDevice
        (MemoryPool.Relocate.host_buffer drv self trace) self.m_vk_host_memory 0])
    self.m_parent_context.GetDevice (MemoryPool.Relocate.dst_buffer_info self)).1

/-- The handle line 132 stores in `m_vk_device_buffer`. -/
def MemoryPool.Relocate.device_buffer (drv : Driver) (self : MemoryPool)
    (trace : List NativeCall) : Nat :=
  (drv.vkCreateBuffer
    (trace ++ [NativeCall.vkCreateBuffer self.m_parent_context.GetDevice
        (MemoryPool.Relocate.src_buffer_info self),
      NativeCall.vkBindBufferMemory self.m_parent_context.GetDevice
        (MemoryPool.Relocate.host_buffer drv self trace) self.m_vk_host_memory 0])
    self.m_parent_context.GetDevice (MemoryPool.Relocate.dst_buffer_info self)).2

/-- The `result3` of line 135: the driver's answer to the bind of the copy-destination
buffer to the device memory, asked after the calls of lines 118, 121 and 132. -/
def MemoryPool.Relocate.result3 (drv : Driver) (self : MemoryPool)
    (trace : List NativeCall) : Nat :=
  drv.vkBindBufferMemory
    (trace ++ [NativeCall.vkCreateBuffer self.m_parent_context.GetDevice
        (MemoryPool.Relocate.src_buffer_info self),
      NativeCall.vkBindBufferMemory self.m_parent_context.GetDevice
        (MemoryPool.Relocate.host_buffer drv self trace) self.m_vk_host_memory 0,
      NativeCall.vkCreateBuffer self.m_parent_context.GetDevice
        (MemoryPool.Relocate.dst_buffer_info self)])
    self.m_parent_context.GetDevice (MemoryPool.Relocate.device_buffer drv self trace)
    self.m_vk_device_memory 0

/-- The four setup calls of lines 118, 121, 132 and 135, in source order. -/
def MemoryPool.Relocate.setupCalls (drv : Driver) (self : MemoryPool)
    (trace : List NativeCall) : List NativeCall :=
  [NativeCall.vkCreateBuffer self.m_parent_context.GetDevice
      (MemoryPool.Relocate.src_buffer_info self),
    NativeCall.vkBindBufferMemory self.m_parent_context.GetDevice
      (MemoryPool.Relocate.host_buffer drv self trace) self.m_vk_host_memory 0,
    NativeCall.vkCreateBuffer self.m_parent_context.GetDevice
      (MemoryPool.Relocate.dst_buffer_info self),
    NativeCall.vkBindBufferMemory self.m_parent_context.GetDevice
      (MemoryPool.Relocate.device_buffer drv self trace) self.m_vk_device_memory 0]

/-- The copy command of line 142. -/
def MemoryPool.Relocate.copyCall (drv : Driver) (vk_command_buffer : Nat)
    (self : MemoryPool) (trace : List NativeCall) : NativeCall :=
  NativeCall.vkCmdCopyBuffer vk_command_buffer
    (MemoryPool.Relocate.host_buffer drv self trace)
    (MemoryPool.Relocate.device_buffer drv self trace) 1
    [{ srcOffset := 0, dstOffset := 0, size := self.m_size }]

/-! ## Sequences of calls on an initialised pool -/

/-- Whether a driver call binds a buffer to memory. -/
def NativeCall.isBind : NativeCall → Bool
  | NativeCall.vkBindBufferMemory _ _ _ _ => true
  | _ => false

/-- A call a user of the pool can make after `Initialize`. -/
inductive PoolOp where
  | Relocate (vk_command_buffer : Nat)
  | GetDeviceMemory
  | RequiresRelocation
  | Finalize (context : Context)

/-- The effect of one call on the fields of the pool and on the call trace.  The two
accessors are `const` and leave both unchanged; a `Relocate` that stops at an
assertion leaves the fields and the trace as they were at that assertion. -/
def PoolOp.apply (drv : Driver) (op : PoolOp) (state : MemoryPool × List NativeCall) :
    MemoryPool × List NativeCall :=
  match op with
  | PoolOp.Relocate vk_command_buffer =>
    ((MemoryPool.Relocate drv vk_command_buffer state.1 state.2).pool,
      (MemoryPool.Relocate drv vk_command_buffer state.1 state.2).trace)
  | PoolOp.GetDeviceMemory => state
  | PoolOp.RequiresRelocation => state
  | PoolOp.Finalize context => MemoryPool.Finalize context state.1 state.2

/-- The state after a sequence of calls. -/
def runOps (drv : Driver) : List PoolOp → MemoryPool × List NativeCall →
    MemoryPool × List NativeCall
  | [], state => state
  | op :: rest, state => runOps drv rest (op.apply drv state)

/-- The values `RequiresRelocation()` takes along a sequence of calls: before the
first call and after each call. -/
def flagHistory (drv : Driver) : List PoolOp → MemoryPool × List NativeCall → List Bool
  | [], state => [state.1.RequiresRelocation]
  | op :: rest, state => state.1.RequiresRelocation :: flagHistory drv rest (op.apply drv state)

/-- The number of places where a list of flag values changes. -/
def countFlips : List Bool → Nat
  | a :: b :: rest => (if a = b then 0 else 1) + countFlips (b :: rest)
  | _ => 0

end dd.vk

/-! Learn-DD: three-component vectors (`includes/dd/util/math/util_vector3.hpp`,
`source/util/math/util_vector3calc.cpp`), over an arbitrary scalar type with exact
arithmetic. -/

namespace dd.util.math

/-- The four-lane SIMD vector type `Vector3Type<T>::v3` (line 24). -/
structure Vector3Type.v3 (T : Type) where
  lane0 : T
  lane1 : T
  lane2 : T
  lane3 : T
  deriving DecidableEq, Repr

/-- The class `Vector3Type<T>` (lines 22-32): the components `x`, `y`, `z`, which the
union also exposes as `m_vec[0]`, `m_vec[1]`, `m_vec[2]`. -/
structure Vector3Type (T : Type) where
  x : T
  y : T
  z : T
  deriving DecidableEq, Repr

/-- The lane-wise product of two SIMD vectors (the `*` of the vector extension). -/
def Vector3Type.v3.mul {T : Type} [Mul T] (a b : Vector3Type.v3 T) : Vector3Type.v3 T :=
  ⟨a.lane0 * b.lane0, a.lane1 * b.lane1, a.lane2 * b.lane2, a.lane3 * b.lane3⟩

/-- `Vector3Type::GetVectorType` (lines 41-107): the components in lanes 0 to 2 and
zero in lane 3, on the constant-evaluated path (`v3{x,y,z,0}`) and on the SSE path
(load, then a zero inserted in lane 3) alike. -/
def Vector3Type.GetVectorType {T : Type} [Zero T] (self : Vector3Type T) : Vector3Type.v3 T :=
  ⟨self.x, self.y, self.z, 0⟩

/-- `Vector3Type::Dot` (lines 221-229). -/
def Vector3Type.Dot {T : Type} [Zero T] [Add T] [Mul T] (self rhs : Vector3Type T) : T :=
  let temp := Vector3Type.v3.mul self.GetVectorType rhs.GetVectorType
  temp.lane0 + temp.lane1 + temp.lane2

/-- `RotateVectorAxisZ` (header lines 271-283, `util_vector3calc.cpp` lines 33-45).
`out_vector` and `rot_vector` are the addresses of the output object and of the input
object in a memory of vector objects, and the function returns the memory after the
three assignments; each assignment reads `rot_vector` from the memory as it is at
that point, so that a call with `out_vector == &rot_vector` is covered.
`FloatSample` is the factor that turns the angle into a sample index and
`SampleSin`, `SampleCos` are the sampling functions; none of the three is declared
in the available sources. -/
def RotateVectorAxisZ {T : Type} [Add T] [Sub T] [Mul T] (FloatSample : T)
    (SampleSin SampleCos : T → T) (memory : Nat → Vector3Type T)
    (out_vector rot_vector : Nat) (angle : T) : Nat → Vector3Type T :=
  let index := angle * FloatSample
  let sin := SampleSin index
  let cos := SampleCos index
  let memory1 := Function.update memory out_vector
    { memory out_vector with y := (memory rot_vector).y }
  let memory2 := Function.update memory1 out_vector
    { memory1 out_vector with
      z := ((memory1 rot_vector).z * cos) - (sin * (memory1 rot_vector).x) }
  let memory3 := Function.update memory2 out_vector
    { memory2 out_vector with
      x := ((memory2 rot_vector).z * sin) + (cos * (memory2 rot_vector).x) }
  memory3

/-- `Parallelize` (header lines 285-291, `util_vector3calc.cpp` lines 47-53). -/
def Parallelize {T : Type} [Zero T] [Add T] [Mul T]
    (out_vector base to_parallelize : Vector3Type T) : Vector3Type T :=
  let dot := base.Dot to_parallelize
  let out1 : Vector3Type T := { out_vector with x := to_parallelize.x * dot }
  let out2 : Vector3Type T := { out1 with y := to_parallelize.y * dot }
  let out3 : Vector3Type T := { out2 with z := to_parallelize.z * dot }
  out3

/-- `RotateVectorAxisX` (header lines 243-255, `util_vector3calc.cpp` lines 5-17);
memory, addresses, `FloatSample`, `SampleSin` and `SampleCos` as for
`RotateVectorAxisZ`. -/
def RotateVectorAxisX {T : Type} [Add T] [Sub T] [Mul T] (FloatSample : T)
    (SampleSin SampleCos : T → T) (memory : Nat → Vector3Type T)
    (out_vector rot_vector : Nat) (angle : T) : Nat → Vector3Type T :=
  let index := angle * FloatSample
  let sin := SampleSin index
  let cos := SampleCos index
  let memory1 := Function.update memory out_vector
    { memory out_vector with x := (memory rot_vector).x }
  let memory2 := Function.update memory1 out_vector
    { memory1 out_vector with
      y := ((memory1 rot_vector).y * sin) - (cos * (memory1 rot_vector).z) }
  let memory3 := Function.update memory2 out_vector
    { memory2 out_vector with
      z := ((memory2 rot_vector).y * cos) + (sin * (memory2 rot_vector).z) }
  memory3

/-- `RotateVectorAxisY` (header lines 257-269, `util_vector3calc.cpp` lines 19-31);
memory, addresses, `FloatSample`, `SampleSin` and `SampleCos` as for
`RotateVectorAxisZ`. -/
def RotateVectorAxisY {T : Type} [Add T] [Sub T] [Mul T] (FloatSample : T)
    (SampleSin SampleCos : T → T) (memory : Nat → Vector3Type T)
    (out_vector rot_vector : Nat) (angle : T) : Nat → Vector3Type T :=
  let index := angle * FloatSample
  let sin := SampleSin index
  let cos := SampleCos index
  let memory1 := Function.update memory out_vector
    { memory out_vector with
      x := ((memory rot_vector).z * cos) + (sin * (memory rot_vector).x) }
  let memory2 := Function.update memory1 out_vector
    { memory1 out_vector with y := (memory1 rot_vector).y }
  let memory3 := Function.update memory2 out_vector
    { memory2 out_vector with
      z := ((memory2 rot_vector).z * sin) - (cos * (memory2 rot_vector).x) }
  memory3

/-- A memory of vector objects for the examples: the object at address 16 is `first`
and the object at every other address is `second`. -/
def twoVectors {T : Type} (first second : Vector3Type T) : Nat → Vector3Type T :=
  fun address => if address = 16 then first else second

/-! ## Integer vectors and the operators of `Vector3Type` -/

/-- The scalar type of `Vector3u` (`unsigned int`): the integers modulo 2^32, whose sum
and product are the sum and product of the values reduced `% 4294967296`. -/
abbrev u32 : Type := ZMod 4294967296

/-- The lane-wise sum of two SIMD vectors (the `+` of the vector extension). -/
def Vector3Type.v3.add {T : Type} [Add T] (a b : Vector3Type.v3 T) : Vector3Type.v3 T :=
  ⟨a.lane0 + b.lane0, a.lane1 + b.lane1, a.lane2 + b.lane2, a.lane3 + b.lane3⟩

/-- The lane-wise difference of two SIMD vectors (the `-` of the vector extension). -/
def Vector3Type.v3.sub {T : Type} [Sub T] (a b : Vector3Type.v3 T) : Vector3Type.v3 T :=
  ⟨a.lane0 - b.lane0, a.lane1 - b.lane1, a.lane2 - b.lane2, a.lane3 - b.lane3⟩

/-- The lane of a SIMD vector selected by a two-bit index (`v[i]`). -/
def Vector3Type.v3.lane {T : Type} (v : Vector3Type.v3 T) (index : Nat) : T :=
  match index % 4 with
  | 0 => v.lane0
  | 1 => v.lane1
  | 2 => v.lane2
  | _ => v.lane3

/-- The constructor `Vector3Type(const v3& copy)` (lines 37-38): lanes 0 to 2. -/
def Vector3Type.ofV3 {T : Type} (copy : Vector3Type.v3 T) : Vector3Type T :=
  ⟨copy.lane0, copy.lane1, copy.lane2⟩

/-- `Vector3Type::operator+` (lines 109-115). -/
def Vector3Type.operatorAdd {T : Type} [Zero T] [Add T] (self rhs : Vector3Type T) :
    Vector3Type T :=
  Vector3Type.ofV3 (Vector3Type.v3.add self.GetVectorType rhs.GetVectorType)

/-- `Vector3Type::operator*` by a scalar (lines 125-131). -/
def Vector3Type.operatorMul {T : Type} [Mul T] (self : Vector3Type T) (scalar : T) :
    Vector3Type T :=
  ⟨self.x * scalar, self.y * scalar, self.z * scalar⟩

/-- `Vector3Type::operator==` (lines 165-171): the `&` of the three comparisons. -/
def Vector3Type.operatorEq {T : Type} [DecidableEq T] (self rhs : Vector3Type T) : Bool :=
  (decide (self.x = rhs.x) && decide (self.y = rhs.y)) && decide (self.z = rhs.z)

/-- `Vector3Type::operator!=` (lines 173-179). -/
def Vector3Type.operatorNe {T : Type} [DecidableEq T] (self rhs : Vector3Type T) : Bool :=
  !(self.operatorEq rhs)

/-! ## The values of a `float` -/

/-- The values of the scalar type `float` of `Vector3f`, as far as the examples need
them: the finite values (kept exact here: rounding is not modelled), the two
infinities, and NaN. -/
inductive FloatValue where
  | finite (value : ℚ)
  | infinity (negative : Bool)
  | nan
  deriving DecidableEq

/-- The product of two `float` values by the IEEE 754 rules for the special values:
NaN times anything is NaN, an infinity times zero is NaN, an infinity times a
non-zero value is the infinity with the product sign. -/
def FloatValue.mul : FloatValue → FloatValue → FloatValue
  | FloatValue.nan, _ => FloatValue.nan
  | _, FloatValue.nan => FloatValue.nan
  | FloatValue.finite p, FloatValue.finite q => FloatValue.finite (p * q)
  | FloatValue.infinity s, FloatValue.finite q =>
    if q = 0 then FloatValue.nan else FloatValue.infinity (xor s (decide (q < 0)))
  | FloatValue.finite p, FloatValue.infinity s =>
    if p = 0 then FloatValue.nan else FloatValue.infinity (xor (decide (p < 0)) s)
  | FloatValue.infinity s, FloatValue.infinity t => FloatValue.infinity (xor s t)

/-- The sum of two `float` values by the IEEE 754 rules for the special values: NaN
plus anything is NaN, the two opposite infinities add to NaN, an infinity plus
anything else is that infinity. -/
def FloatValue.add : FloatValue → FloatValue → FloatValue
  | FloatValue.nan, _ => FloatValue.nan
  | _, FloatValue.nan => FloatValue.nan
  | FloatValue.finite p, FloatValue.finite q => FloatValue.finite (p + q)
  | FloatValue.infinity s, FloatValue.finite _ => FloatValue.infinity s
  | FloatValue.finite _, FloatValue.infinity s => FloatValue.infinity s
  | FloatValue.infinity s, FloatValue.infinity t =>
    if s = t then FloatValue.infinity s else FloatValue.nan

/-- The comparison `==` of two `float` values: NaN compares equal to nothing, not even
to itself. -/
def FloatValue.operatorEq : FloatValue → FloatValue → Bool
  | FloatValue.finite p, FloatValue.finite q => decide (p = q)
  | FloatValue.infinity s, FloatValue.infinity t => decide (s = t)
  | _, _ => false

/-- The `float` value 0. -/
instance FloatValue.instZero : Zero FloatValue := ⟨FloatValue.finite 0⟩

/-- The `float` sum. -/
instance FloatValue.instAdd : Add FloatValue := ⟨FloatValue.add⟩

/-- The `float` product. -/
instance FloatValue.instMul : Mul FloatValue := ⟨FloatValue.mul⟩

/-! ## The SSE wrappers used by `Cross` -/

/-- Modelled from the spec: `sse4::ShuffleToOrder` is declared outside the available
sources.  It is read as the shuffle immediate that selects lanes `i`, `j`, `k`, `l`
in that order: two bits per result lane, the first result lane in the lowest bits. -/
def sse4.ShuffleToOrder (i j k l : Nat) : Nat :=
  i % 4 + 4 * (j % 4) + 16 * (k % 4) + 64 * (l % 4)

/-- Modelled from the spec: `sse4::shufps` is declared outside the available sources.
It is read as the SSE instruction: result lanes 0 and 1 are the lanes of the first
operand selected by bits 0-1 and 2-3 of the immediate, result lanes 2 and 3 the
lanes of the second operand selected by bits 4-5 and 6-7. -/
def sse4.shufps {T : Type} (a b : Vector3Type.v3 T) (immediate : Nat) : Vector3Type.v3 T :=
  ⟨a.lane (immediate % 4), a.lane (immediate / 4 % 4), b.lane (immediate / 16 % 4),
    b.lane (immediate / 64 % 4)⟩

/-- Modelled from the spec: `sse4::pshufd` is declared outside the available sources.
It is read as the SSE2 instruction: result lane `n` is the lane of the operand
selected by bits `2n` and `2n+1` of the immediate. -/
def sse4.pshufd {T : Type} (a : Vector3Type.v3 T) (immediate : Nat) : Vector3Type.v3 T :=
  ⟨a.lane (immediate % 4), a.lane (immediate / 4 % 4), a.lane (immediate / 16 % 4),
    a.lane (immediate / 64 % 4)⟩

/-- Modelled from the spec: `sse4::mulps` is declared outside the available sources.
It is read as the lane-wise product. -/
def sse4.mulps {T : Type} [Mul T] (a b : Vector3Type.v3 T) : Vector3Type.v3 T :=
  Vector3Type.v3.mul a b

/-- Modelled from the spec: `sse4::subps` is declared outside the available sources.
It is read as the lane-wise difference. -/
def sse4.subps {T : Type} [Sub T] (a b : Vector3Type.v3 T) : Vector3Type.v3 T :=
  Vector3Type.v3.sub a b

/-- Modelled from the spec: `sse4::pmuld` is declared outside the available sources.
It is read as the lane-wise product of 32-bit integers (the low 32 bits of each
product). -/
def sse4.pmuld {T : Type} [Mul T] (a b : Vector3Type.v3 T) : Vector3Type.v3 T :=
  Vector3Type.v3.mul a b

/-- Modelled from the spec: `sse4::psubd` is declared outside the available sources.
It is read as the lane-wise difference of 32-bit integers. -/
def sse4.psubd {T : Type} [Sub T] (a b : Vector3Type.v3 T) : Vector3Type.v3 T :=
  Vector3Type.v3.sub a b

/-- `Vector3Type::Cross`, the overload for floating-point `T` (lines 181-199). -/
def Vector3Type.Cross_floating_point {T : Type} [Zero T] [Sub T] [Mul T]
    (self rhs : Vector3Type T) : Vector3Type T :=
  let a := sse4.shufps self.GetVectorType self.GetVectorType (sse4.ShuffleToOrder 1 2 0 3)
  let b := sse4.shufps rhs.GetVectorType rhs.GetVectorType (sse4.ShuffleToOrder 2 0 1 3)
  let c := sse4.mulps a rhs.GetVectorType
  let d := sse4.mulps a b
  let e := sse4.shufps c c (sse4.ShuffleToOrder 1 2 0 3)
  Vector3Type.ofV3 (sse4.subps d e)

/-- `Vector3Type::Cross`, the overload for integral `T` (lines 201-219). -/
def Vector3Type.Cross {T : Type} [Zero T] [Sub T] [Mul T]
    (self rhs : Vector3Type T) : Vector3Type T :=
  let a := sse4.pshufd self.GetVectorType (sse4.ShuffleToOrder 1 2 0 3)
  let b := sse4.pshufd rhs.GetVectorType (sse4.ShuffleToOrder 2 0 1 3)
  let c := sse4.pmuld a rhs.GetVectorType
  let d := sse4.pmuld a b
  let e := sse4.pshufd c (sse4.ShuffleToOrder 1 2 0 3)
  Vector3Type.ofV3 (sse4.psubd d e)

/-! ## Matrices (`includes/dd/util/math/util_matrix34.hpp`) -/

/-- Modelled from the spec: the class `Vector4Type<T>` is declared outside the
available sources; only its four-component constructor is used. -/
structure Vector4Type (T : Type) where
  x : T
  y : T
  z : T
  w : T
  deriving DecidableEq, Repr

/-- The class `Matrix34RowMajorType<T>` (lines 20-47): three rows of four. -/
structure Matrix34RowMajorType (T : Type) where
  m_row1 : Vector4Type T
  m_row2 : Vector4Type T
  m_row3 : Vector4Type T
  deriving DecidableEq, Repr

/-- `ZeroMatrix34<T>` (lines 53-54). -/
def ZeroMatrix34 {T : Type} [Zero T] : Matrix34RowMajorType T :=
  ⟨⟨0, 0, 0, 0⟩, ⟨0, 0, 0, 0⟩, ⟨0, 0, 0, 0⟩⟩

/-- `IdentityMatrix34<T>` (lines 56-57). -/
def IdentityMatrix34 {T : Type} [Zero T] [One T] : Matrix34RowMajorType T :=
  ⟨⟨1, 0, 0, 0⟩, ⟨0, 1, 0, 0⟩, ⟨0, 0, 1, 0⟩⟩

/-- `MakeVectorRotation` (lines 59-87), over exact rational arithmetic: the returned
flag and the matrix left in `*out_rot_matrix`.  `FloatUlp` is not declared in the
available sources and `sqrt` is the square root of the C library; both are
parameters. -/
def MakeVectorRotation (FloatUlp : ℚ) (sqrt : ℚ → ℚ)
    (_out_rot_matrix : Matrix34RowMajorType ℚ) (align base : Vector3Type ℚ) :
    Bool × Matrix34RowMajorType ℚ :=
  let dot := base.Dot align + 1
  if dot ≤ FloatUlp then
    let out1 : Matrix34RowMajorType ℚ := ZeroMatrix34
    (false, out1)
  else
    let sqrt2dot := sqrt (dot + dot)
    let k := 1 / sqrt2dot
    let kcross := (base.Cross_floating_point align).operatorMul k
    let kcross2x := kcross.x + kcross.x
    let kcross2y_kcrossy := kcross.y * (kcross.y + kcross.y)
    let kcross2z_kcrossz := kcross.z * (kcross.z + kcross.z)
    let kcross2y_kcrossz := kcross.z * (kcross.y + kcross.y)
    let oproj_kcross2x_kcrossx := 1 - (kcross.x * kcross2x)
    let row1 : Vector4Type ℚ :=
      ⟨(1 - kcross2y_kcrossy) - kcross2y_kcrossz,
        (kcross.y * kcross2x) - (kcross.z * sqrt2dot),
        (kcross.y * sqrt2dot) + (kcross.z * kcross2x), 0⟩
    let row2 : Vector4Type ℚ :=
      ⟨(kcross.z * sqrt2dot) + (kcross.y * kcross2x),
        oproj_kcross2x_kcrossx - kcross2z_kcrossz,
        kcross2z_kcrossz - (kcross.x * sqrt2dot), 0⟩
    let row3 : Vector4Type ℚ :=
      ⟨(kcross.z * kcross2x) - (kcross.y - sqrt2dot),
        (kcross.x * sqrt2dot) + kcross2y_kcrossz,
        oproj_kcross2x_kcrossx - kcross2y_kcrossy, 0⟩
    let out : Matrix34RowMajorType ℚ := ⟨row1, row2, row3⟩
    (true, out)

/-- A square root on the rationals that is exact on the squares used in the
examples (0, 1, 4, 9, 16) and 0 elsewhere. -/
def sampleSqrt (value : ℚ) : ℚ :=
  if value = 1 then 1 else if value = 4 then 2 else if value = 9 then 3
  else if value = 16 then 4 else 0

end dd.util.math

namespace dd.vk

/-! ## Helper lemmas -/

/-- Relocation never writes the memory handles nor the policy flag read by
`GetDeviceMemory`, whether it returns or stops at an assertion. -/
theorem MemoryPool.Relocate_preserves_memory (drv : Driver) (vk_command_buffer : Nat)
    (self : MemoryPool) (trace : List NativeCall) :
    (MemoryPool.Relocate drv vk_command_buffer self trace).pool.m_vk_host_memory
        = self.m_vk_host_memory ∧
      (MemoryPool.Relocate drv vk_command_buffer self trace).pool.m_vk_device_memory
        = self.m_vk_device_memory ∧
      (MemoryPool.Relocate drv vk_command_buffer self trace).pool.m_is_device_memory
        = self.m_is_device_memory := by
  unfold MemoryPool.Relocate DD_ASSERT
  dsimp only
  split_ifs <;> simp

/-- The handle reported by `GetDeviceMemory` is the same after `Relocate` as before. -/
theorem MemoryPool.Relocate_GetDeviceMemory (drv : Driver) (vk_command_buffer : Nat)
    (self : MemoryPool) (trace : List NativeCall) :
    (MemoryPool.Relocate drv vk_command_buffer self trace).pool.GetDeviceMemory
      = self.GetDeviceMemory := by
  obtain ⟨h1, h2, h3⟩ := MemoryPool.Relocate_preserves_memory drv vk_command_buffer self trace
  simp only [MemoryPool.GetDeviceMemory, h1, h2, h3]

/-! ## Initialization: policy decision -/

/-- C1: when the memory-type bits reported for the host pointer satisfy the desired
flags, a successful `Initialize` leaves `RequiresRelocation() == false`, its last
driver call is the import allocation (the only allocation after the query), and
`GetDeviceMemory()` returns the handle the driver produced for that import. -/
theorem MemoryPool.Initialize_direct_policy (drv : Driver) (context : Context)
    (pool_info : MemoryPoolInfo) (self : MemoryPool) (trace : List NativeCall)
    (hbits : (drv.vkGetMemoryHostPointerPropertiesEXT trace context.GetDevice 0
        pool_info.import_memory).2 &&& pool_info.memory_property_flags
          = pool_info.memory_property_flags)
    (hok : (MemoryPool.Initialize drv context pool_info self trace).status = Status.ok) :
    (MemoryPool.Initialize drv context pool_info self trace).pool.RequiresRelocation = false ∧
      (MemoryPool.Initialize drv context pool_info self trace).trace
        = trace ++
          [NativeCall.vkGetMemoryHostPointerPropertiesEXT context.GetDevice 0
            pool_info.import_memory] ++
          [NativeCall.vkAllocateMemory context.GetDevice
            { pNext := some
                { handleType := VK_EXTERNAL_MEMORY_HANDLE_TYPE_HOST_ALLOCATION_BIT_EXT
                  pHostPointer := pool_info.import_memory }
              allocationSize := pool_info.size
              memoryTypeIndex :=
                s32ToU32 (context.FindMemoryHeapIndex pool_info.memory_property_flags) }] ∧
      (MemoryPool.Initialize drv context pool_info self trace).pool.GetDeviceMemory
        = (drv.vkAllocateMemory
            (trace ++ [NativeCall.vkGetMemoryHostPointerPropertiesEXT context.GetDevice 0
              pool_info.import_memory])
            context.GetDevice
            { pNext := some
                { handleType := VK_EXTERNAL_MEMORY_HANDLE_TYPE_HOST_ALLOCATION_BIT_EXT
                  pHostPointer := pool_info.import_memory }
              allocationSize := pool_info.size
              memoryTypeIndex :=
                s32ToU32 (context.FindMemoryHeapIndex pool_info.memory_property_flags) }).2 ∧
      (MemoryPool.Initialize drv context pool_info self trace).pool.GetDeviceMemory
        = (MemoryPool.Initialize drv context pool_info self trace).pool.m_vk_host_memory := by
  unfold MemoryPool.Initialize DD_ASSERT at hok ⊢
  dsimp only at hok ⊢
  simp only [hbits, beq_self_eq_true, if_true] at hok ⊢
  split_ifs at hok ⊢ <;>
    simp_all [MemoryPool.RequiresRelocation, MemoryPool.GetDeviceMemory]

/-- C1 witness: a zero-initialised pool, desired flags host-visible and host-coherent,
memory-type bits 6 reported for the host pointer. -/
theorem MemoryPool.Initialize_direct_policy_witness :
    (MemoryPool.Initialize (sampleDriver VK_ERROR_INVALID_EXTERNAL_HANDLE 6) sampleContext
        ⟨65536, 6, 0⟩ zeroPool []).status = Status.ok ∧
      (MemoryPool.Initialize (sampleDriver VK_ERROR_INVALID_EXTERNAL_HANDLE 6) sampleContext
        ⟨65536, 6, 0⟩ zeroPool []).pool.RequiresRelocation = false ∧
      (MemoryPool.Initialize (sampleDriver VK_ERROR_INVALID_EXTERNAL_HANDLE 6) sampleContext
        ⟨65536, 6, 0⟩ zeroPool []).pool.GetDeviceMemory = 4097 :=
  have h := MemoryPool.Initialize_direct_policy
    (sampleDriver VK_ERROR_INVALID_EXTERNAL_HANDLE 6) sampleContext ⟨65536, 6, 0⟩ zeroPool []
    (by decide) (by decide)
  ⟨by decide, h.1, h.2.2.1.trans (by decide)⟩

/-- C2: when the memory-type bits reported for the host pointer do not satisfy the
desired flags, a successful `Initialize` leaves `RequiresRelocation() == true`, has
issued a device allocation that the driver answered with success, stores the handle
of that allocation, and `GetDeviceMemory()` returns that handle both before and
after any `Relocate`. -/
theorem MemoryPool.Initialize_staged_policy (drv : Driver) (context : Context)
    (pool_info : MemoryPoolInfo) (self : MemoryPool) (trace : List NativeCall)
    (hbits : (drv.vkGetMemoryHostPointerPropertiesEXT trace context.GetDevice 0
        pool_info.import_memory).2 &&& pool_info.memory_property_flags
          ≠ pool_info.memory_property_flags)
    (hok : (MemoryPool.Initialize drv context pool_info self trace).status = Status.ok) :
    (MemoryPool.Initialize drv context pool_info self trace).pool.RequiresRelocation = true ∧
      NativeCall.vkAllocateMemory context.GetDevice
          { pNext := none
            allocationSize := pool_info.size
            memoryTypeIndex :=
              s32ToU32 (context.FindMemoryHeapIndex pool_info.memory_property_flags) }
        ∈ (MemoryPool.Initialize drv context pool_info self trace).trace ∧
      (drv.vkAllocateMemory
          (trace ++ [NativeCall.vkGetMemoryHostPointerPropertiesEXT context.GetDevice 0
            pool_info.import_memory])
          context.GetDevice
          { pNext := none
            allocationSize := pool_info.size
            memoryTypeIndex :=
              s32ToU32 (context.FindMemoryHeapIndex pool_info.memory_property_flags) }).1
        = VK_SUCCESS ∧
      (MemoryPool.Initialize drv context pool_info self trace).pool.m_vk_device_memory
        = (drv.vkAllocateMemory
            (trace ++ [NativeCall.vkGetMemoryHostPointerPropertiesEXT context.GetDevice 0
              pool_info.import_memory])
            context.GetDevice
            { pNext := none
              allocationSize := pool_info.size
              memoryTypeIndex :=
                s32ToU32 (context.FindMemoryHeapIndex pool_info.memory_property_flags) }).2 ∧
      (MemoryPool.Initialize drv context pool_info self trace).pool.GetDeviceMemory
        = (MemoryPool.Initialize drv context pool_info self trace).pool.m_vk_device_memory ∧
      ∀ (drv2 : Driver) (vk_command_buffer : Nat),
        (MemoryPool.Relocate drv2 vk_command_buffer
            (MemoryPool.Initialize drv context pool_info self trace).pool
            (MemoryPool.Initialize drv context pool_info self trace).trace).pool.GetDeviceMemory
          = (MemoryPool.Initialize drv context pool_info self trace).pool.m_vk_device_memory := by
  have key : (MemoryPool.Initialize drv context pool_info self trace).pool.RequiresRelocation
        = true ∧
      NativeCall.vkAllocateMemory context.GetDevice
          { pNext := none
            allocationSize := pool_info.size
            memoryTypeIndex :=
              s32ToU32 (context.FindMemoryHeapIndex pool_info.memory_property_flags) }
        ∈ (MemoryPool.Initialize drv context pool_info self trace).trace ∧
      (drv.vkAllocateMemory
          (trace ++ [NativeCall.vkGetMemoryHostPointerPropertiesEXT context.GetDevice 0
            pool_info.import_memory])
          context.GetDevice
          { pNext := none
            allocationSize := pool_info.size
            memoryTypeIndex :=
              s32ToU32 (context.FindMemoryHeapIndex pool_info.memory_property_flags) }).1
        = VK_SUCCESS ∧
      (MemoryPool.Initialize drv context pool_info self trace).pool.m_vk_device_memory
        = (drv.vkAllocateMemory
            (trace ++ [NativeCall.vkGetMemoryHostPointerPropertiesEXT context.GetDevice 0
              pool_info.import_memory])
            context.GetDevice
            { pNext := none
              allocationSize := pool_info.size
              memoryTypeIndex :=
                s32ToU32 (context.FindMemoryHeapIndex pool_info.memory_property_flags) }).2 ∧
      (MemoryPool.Initialize drv context pool_info self trace).pool.GetDeviceMemory
        = (MemoryPool.Initialize drv context pool_info self trace).pool.m_vk_device_memory := by
    unfold MemoryPool.Initialize DD_ASSERT at hok ⊢
    dsimp only at hok ⊢
    simp only [hbits, beq_iff_eq, if_false] at hok ⊢
    split_ifs at hok ⊢ <;> exact ⟨rfl, by simp, by assumption, rfl, rfl⟩
  obtain ⟨h1, h2, h3, h4, h5⟩ := key
  refine ⟨h1, h2, h3, h4, h5, ?_⟩
  intro drv2 vk_command_buffer
  rw [MemoryPool.Relocate_GetDeviceMemory, h5]

/-- C2 witness: a zero-initialised pool, desired flags device-local, memory-type
bits 6 reported for the host pointer; the device allocation returns handle 4097. -/
theorem MemoryPool.Initialize_staged_policy_witness :
    (MemoryPool.Initialize (sampleDriver VK_ERROR_INVALID_EXTERNAL_HANDLE 6) sampleContext
        ⟨65536, 1, 0⟩ zeroPool []).status = Status.ok ∧
      (MemoryPool.Initialize (sampleDriver VK_ERROR_INVALID_EXTERNAL_HANDLE 6) sampleContext
        ⟨65536, 1, 0⟩ zeroPool []).pool.RequiresRelocation = true ∧
      (MemoryPool.Initialize (sampleDriver VK_ERROR_INVALID_EXTERNAL_HANDLE 6) sampleContext
        ⟨65536, 1, 0⟩ zeroPool []).pool.GetDeviceMemory = 4097 ∧
      (MemoryPool.Relocate (sampleDriver VK_ERROR_INVALID_EXTERNAL_HANDLE 6) 99
        (MemoryPool.Initialize (sampleDriver VK_ERROR_INVALID_EXTERNAL_HANDLE 6) sampleContext
          ⟨65536, 1, 0⟩ zeroPool []).pool
        (MemoryPool.Initialize (sampleDriver VK_ERROR_INVALID_EXTERNAL_HANDLE 6) sampleContext
          ⟨65536, 1, 0⟩ zeroPool []).trace).pool.GetDeviceMemory = 4097 :=
  have h := MemoryPool.Initialize_staged_policy
    (sampleDriver VK_ERROR_INVALID_EXTERNAL_HANDLE 6) sampleContext ⟨65536, 1, 0⟩ zeroPool []
    (by decide) (by decide)
  ⟨by decide, h.1, h.2.2.2.2.1.trans (h.2.2.2.1.trans (by decide)),
    (h.2.2.2.2.2 (sampleDriver VK_ERROR_INVALID_EXTERNAL_HANDLE 6) 99).trans
      (h.2.2.2.1.trans (by decide))⟩

/-! ## Initialization: the assertions at lines 26, 36 and 39 -/

/-- The assertion at line 39 can never fail: whatever memory-type bits the query
reports, the asserted value has the host-coherent bit or-ed into it. -/
theorem MemoryPool.Initialize_line39_never_fails (drv : Driver) (context : Context)
    (pool_info : MemoryPoolInfo) (self : MemoryPool) (trace : List NativeCall) :
    (MemoryPool.Initialize drv context pool_info self trace).status
      ≠ Status.assertFailed 39 := by
  unfold MemoryPool.Initialize DD_ASSERT
  dsimp only
  split_ifs <;> first | (simp; done) | (rename_i hcond; exact absurd (by decide) hcond)

/-- C3: evaluation at the failing inputs.  With a null host pointer and a query
that reports memory-type bits without the host-coherent bit (bits 0, and bits 2 =
host-visible only), `Initialize` does not stop at an assertion: it returns
normally after issuing two memory allocations. -/
theorem MemoryPool.Initialize_accepts_non_coherent_host_pointer :
    (MemoryPool.Initialize (sampleDriver VK_ERROR_INVALID_EXTERNAL_HANDLE 0) sampleContext
        ⟨65536, 1, 0⟩ zeroPool []).status = Status.ok ∧
      ((MemoryPool.Initialize (sampleDriver VK_ERROR_INVALID_EXTERNAL_HANDLE 0) sampleContext
        ⟨65536, 1, 0⟩ zeroPool []).trace.filter NativeCall.isAllocation).length = 2 ∧
      (MemoryPool.Initialize (sampleDriver VK_ERROR_INVALID_EXTERNAL_HANDLE 2) sampleContext
        ⟨65536, 1, 0⟩ zeroPool []).status = Status.ok ∧
      ((MemoryPool.Initialize (sampleDriver VK_ERROR_INVALID_EXTERNAL_HANDLE 2) sampleContext
        ⟨65536, 1, 0⟩ zeroPool []).trace.filter NativeCall.isAllocation).length = 2 := by
  decide

/-- C4: the argument check at line 26 is the reverse of the claim.  `Initialize`
stops at line 26 exactly when the host pointer is NOT null; e.g. the non-null
pointer 4660 is rejected before any driver call, and a null pointer passes. -/
theorem MemoryPool.Initialize_argument_check_rejects_non_null :
    (∀ (drv : Driver) (context : Context) (pool_info : MemoryPoolInfo) (self : MemoryPool)
        (trace : List NativeCall),
        (MemoryPool.Initialize drv context pool_info self trace).status
            = Status.assertFailed 26 ↔ pool_info.import_memory ≠ 0) ∧
      (MemoryPool.Initialize (sampleDriver VK_SUCCESS 6) sampleContext
        ⟨65536, 1, 4660⟩ zeroPool []).status = Status.assertFailed 26 ∧
      (MemoryPool.Initialize (sampleDriver VK_SUCCESS 6) sampleContext
        ⟨65536, 1, 4660⟩ zeroPool []).trace = [] ∧
      (MemoryPool.Initialize (sampleDriver VK_SUCCESS 6) sampleContext
        ⟨65536, 1, 0⟩ zeroPool []).status ≠ Status.assertFailed 26 := by
  refine ⟨?_, by decide, by decide, by decide⟩
  intro drv context pool_info self trace
  by_cases hptr : pool_info.import_memory = 0
  · unfold MemoryPool.Initialize DD_ASSERT
    dsimp only
    simp only [hptr, beq_self_eq_true, if_true, ne_eq, not_true_eq_false, iff_false]
    split_ifs <;> simp
  · unfold MemoryPool.Initialize DD_ASSERT
    simp [hptr]

/-- C5: the check of the query result at line 36 is the reverse of the claim.  With
a null host pointer (so that line 26 passes), `Initialize` stops at line 36 exactly
when the query returns `VK_SUCCESS`; e.g. it stops there, before any allocation,
when the query succeeds, and it runs to completion when the query returns
`VK_ERROR_INVALID_EXTERNAL_HANDLE`. -/
theorem MemoryPool.Initialize_query_check_rejects_success :
    (∀ (drv : Driver) (context : Context) (size flags : Nat) (self : MemoryPool)
        (trace : List NativeCall),
        (MemoryPool.Initialize drv context ⟨size, flags, 0⟩ self trace).status
            = Status.assertFailed 36 ↔
          (drv.vkGetMemoryHostPointerPropertiesEXT trace context.GetDevice 0 0).1
            = VK_SUCCESS) ∧
      (MemoryPool.Initialize (sampleDriver VK_SUCCESS 6) sampleContext
        ⟨65536, 1, 0⟩ zeroPool []).status = Status.assertFailed 36 ∧
      (MemoryPool.Initialize (sampleDriver VK_SUCCESS 6) sampleContext
        ⟨65536, 1, 0⟩ zeroPool []).trace
          = [NativeCall.vkGetMemoryHostPointerPropertiesEXT 7 0 0] ∧
      (MemoryPool.Initialize (sampleDriver VK_ERROR_INVALID_EXTERNAL_HANDLE 6) sampleContext
        ⟨65536, 1, 0⟩ zeroPool []).status = Status.ok := by
  refine ⟨?_, by decide, by decide, by decide⟩
  intro drv context size flags self trace
  by_cases hres : (drv.vkGetMemoryHostPointerPropertiesEXT trace context.GetDevice 0 0).1 = 0
  · unfold MemoryPool.Initialize DD_ASSERT
    simp [hres, VK_SUCCESS]
  · unfold MemoryPool.Initialize DD_ASSERT
    dsimp only
    simp only [beq_self_eq_true, if_true, bne_iff_ne, ne_eq, hres, not_false_eq_true,
      VK_SUCCESS, iff_false]
    split_ifs <;> simp

/-! ## Relocation -/

/-- C6: when `requires_relocation` is false, `Relocate` returns normally with every
field of the pool unchanged and with the call trace unchanged (no buffer created or
bound, no copy recorded, no other driver call). -/
theorem MemoryPool.Relocate_noop_when_not_required (drv : Driver) (vk_command_buffer : Nat)
    (self : MemoryPool) (trace : List NativeCall)
    (hflag : self.RequiresRelocation = false) :
    MemoryPool.Relocate drv vk_command_buffer self trace = ⟨Status.ok, self, trace⟩ := by
  unfold MemoryPool.RequiresRelocation at hflag
  unfold MemoryPool.Relocate
  simp [hflag]

/-- C6 witness: the pool left by a direct-policy `Initialize`. -/
theorem MemoryPool.Relocate_noop_when_not_required_witness :
    (MemoryPool.Initialize (sampleDriver VK_ERROR_INVALID_EXTERNAL_HANDLE 6) sampleContext
        ⟨65536, 6, 0⟩ zeroPool []).pool.RequiresRelocation = false ∧
      MemoryPool.Relocate (sampleDriver VK_ERROR_INVALID_EXTERNAL_HANDLE 6) 99
        (MemoryPool.Initialize (sampleDriver VK_ERROR_INVALID_EXTERNAL_HANDLE 6) sampleContext
          ⟨65536, 6, 0⟩ zeroPool []).pool
        (MemoryPool.Initialize (sampleDriver VK_ERROR_INVALID_EXTERNAL_HANDLE 6) sampleContext
          ⟨65536, 6, 0⟩ zeroPool []).trace
        = ⟨Status.ok,
            (MemoryPool.Initialize (sampleDriver VK_ERROR_INVALID_EXTERNAL_HANDLE 6)
              sampleContext ⟨65536, 6, 0⟩ zeroPool []).pool,
            (MemoryPool.Initialize (sampleDriver VK_ERROR_INVALID_EXTERNAL_HANDLE 6)
              sampleContext ⟨65536, 6, 0⟩ zeroPool []).trace⟩ :=
  ⟨by decide,
    MemoryPool.Relocate_noop_when_not_required
      (sampleDriver VK_ERROR_INVALID_EXTERNAL_HANDLE 6) 99 _ _ (by decide)⟩

/-- A `Relocate` that returns normally leaves `requires_relocation` false. -/
theorem MemoryPool.Relocate_ok_clears_flag (drv : Driver) (vk_command_buffer : Nat)
    (self : MemoryPool) (trace : List NativeCall)
    (hok : (MemoryPool.Relocate drv vk_command_buffer self trace).status = Status.ok) :
    (MemoryPool.Relocate drv vk_command_buffer self trace).pool.m_requires_relocation
      = false := by
  unfold MemoryPool.Relocate DD_ASSERT at hok ⊢
  dsimp only at hok ⊢
  split_ifs at hok ⊢
  · rfl
  · simp_all

/-- C7: `Relocate` is idempotent.  After a first `Relocate` that returns normally,
`RequiresRelocation()` is false and a second `Relocate` (with any command buffer and
any driver behaviour) returns normally with exactly the pool fields and exactly the
call trace the first one left: no buffer creation and no copy command is added. -/
theorem MemoryPool.Relocate_idempotent (drv drv2 : Driver)
    (vk_command_buffer vk_command_buffer2 : Nat) (self : MemoryPool)
    (trace : List NativeCall)
    (hok : (MemoryPool.Relocate drv vk_command_buffer self trace).status = Status.ok) :
    (MemoryPool.Relocate drv vk_command_buffer self trace).pool.RequiresRelocation = false ∧
      MemoryPool.Relocate drv2 vk_command_buffer2
          (MemoryPool.Relocate drv vk_command_buffer self trace).pool
          (MemoryPool.Relocate drv vk_command_buffer self trace).trace
        = ⟨Status.ok, (MemoryPool.Relocate drv vk_command_buffer self trace).pool,
            (MemoryPool.Relocate drv vk_command_buffer self trace).trace⟩ := by
  have hflag := MemoryPool.Relocate_ok_clears_flag drv vk_command_buffer self trace hok
  refine ⟨hflag, ?_⟩
  generalize MemoryPool.Relocate drv vk_command_buffer self trace = first at hflag
  unfold MemoryPool.Relocate
  simp [hflag]

/-- C7 witness: the pool left by a staged-policy `Initialize`; the first `Relocate`
returns normally and the second one adds nothing to the eight calls issued so far. -/
theorem MemoryPool.Relocate_idempotent_witness :
    (MemoryPool.Relocate (sampleDriver VK_ERROR_INVALID_EXTERNAL_HANDLE 6) 99
        (MemoryPool.Initialize (sampleDriver VK_ERROR_INVALID_EXTERNAL_HANDLE 6) sampleContext
          ⟨65536, 1, 0⟩ zeroPool []).pool
        (MemoryPool.Initialize (sampleDriver VK_ERROR_INVALID_EXTERNAL_HANDLE 6) sampleContext
          ⟨65536, 1, 0⟩ zeroPool []).trace).status = Status.ok ∧
      (MemoryPool.Relocate (sampleDriver VK_ERROR_INVALID_EXTERNAL_HANDLE 6) 100
        (MemoryPool.Relocate (sampleDriver VK_ERROR_INVALID_EXTERNAL_HANDLE 6) 99
          (MemoryPool.Initialize (sampleDriver VK_ERROR_INVALID_EXTERNAL_HANDLE 6)
            sampleContext ⟨65536, 1, 0⟩ zeroPool []).pool
          (MemoryPool.Initialize (sampleDriver VK_ERROR_INVALID_EXTERNAL_HANDLE 6)
            sampleContext ⟨65536, 1, 0⟩ zeroPool []).trace).pool
        (MemoryPool.Relocate (sampleDriver VK_ERROR_INVALID_EXTERNAL_HANDLE 6) 99
          (MemoryPool.Initialize (sampleDriver VK_ERROR_INVALID_EXTERNAL_HANDLE 6)
            sampleContext ⟨65536, 1, 0⟩ zeroPool []).pool
          (MemoryPool.Initialize (sampleDriver VK_ERROR_INVALID_EXTERNAL_HANDLE 6)
            sampleContext ⟨65536, 1, 0⟩ zeroPool []).trace).trace).trace.length = 8 :=
  have h := MemoryPool.Relocate_idempotent
    (sampleDriver VK_ERROR_INVALID_EXTERNAL_HANDLE 6)
    (sampleDriver VK_ERROR_INVALID_EXTERNAL_HANDLE 6) 99 100
    (MemoryPool.Initialize (sampleDriver VK_ERROR_INVALID_EXTERNAL_HANDLE 6) sampleContext
      ⟨65536, 1, 0⟩ zeroPool []).pool
    (MemoryPool.Initialize (sampleDriver VK_ERROR_INVALID_EXTERNAL_HANDLE 6) sampleContext
      ⟨65536, 1, 0⟩ zeroPool []).trace
    (by decide)
  ⟨by decide, (congrArg (fun o => o.trace.length) h.2).trans (by decide)⟩

/-- `Initialize` never writes `m_size`, the field `Relocate` sizes its buffers and its
copy with: the configured size goes to `m_host_size` (line 29). -/
theorem MemoryPool.Initialize_preserves_m_size (drv : Driver) (context : Context)
    (pool_info : MemoryPoolInfo) (self : MemoryPool) (trace : List NativeCall) :
    (MemoryPool.Initialize drv context pool_info self trace).pool.m_size = self.m_size := by
  unfold MemoryPool.Initialize DD_ASSERT
  dsimp only
  split_ifs <;> rfl

/-- The calls of a pending `Relocate` that returns normally: a copy-source buffer of
`m_size` bytes bound at offset 0 to the host memory, a copy-destination buffer of
`m_size` bytes bound at offset 0 to the device memory, and one copy of `m_size`
bytes from the first to the second; nothing else. -/
theorem MemoryPool.Relocate_calls_of_ok (drv : Driver) (vk_command_buffer : Nat)
    (self : MemoryPool) (trace : List NativeCall)
    (hflag : self.RequiresRelocation = true)
    (hok : (MemoryPool.Relocate drv vk_command_buffer self trace).status = Status.ok) :
    (MemoryPool.Relocate drv vk_command_buffer self trace).trace
      = trace ++
        [NativeCall.vkCreateBuffer self.m_parent_context.GetDevice
            { size := self.m_size
              usage := VK_BUFFER_USAGE_TRANSFER_SRC_BIT
              sharingMode := VK_SHARING_MODE_EXCLUSIVE
              queueFamilyIndexCount := 1
              pQueueFamilyIndices := [self.m_parent_context.GetGraphicsQueueFamily] },
          NativeCall.vkBindBufferMemory self.m_parent_context.GetDevice
            (MemoryPool.Relocate drv vk_command_buffer self trace).pool.m_vk_host_buffer
            self.m_vk_host_memory 0,
          NativeCall.vkCreateBuffer self.m_parent_context.GetDevice
            { size := self.m_size
              usage := VK_BUFFER_USAGE_TRANSFER_DST_BIT
              sharingMode := VK_SHARING_MODE_EXCLUSIVE
              queueFamilyIndexCount := 1
              pQueueFamilyIndices := [self.m_parent_context.GetGraphicsQueueFamily] },
          NativeCall.vkBindBufferMemory self.m_parent_context.GetDevice
            (MemoryPool.Relocate drv vk_command_buffer self trace).pool.m_vk_device_buffer
            self.m_vk_device_memory 0,
          NativeCall.vkCmdCopyBuffer vk_command_buffer
            (MemoryPool.Relocate drv vk_command_buffer self trace).pool.m_vk_host_buffer
            (MemoryPool.Relocate drv vk_command_buffer self trace).pool.m_vk_device_buffer 1
            [{ srcOffset := 0, dstOffset := 0, size := self.m_size }]] := by
  unfold MemoryPool.RequiresRelocation at hflag
  unfold MemoryPool.Relocate DD_ASSERT at hok ⊢
  dsimp only at hok ⊢
  simp only [hflag, beq_self_eq_true, if_true] at hok ⊢
  split_ifs at hok ⊢
  simp

/-- C8: evaluation at the failing input.  A zero-initialised pool is initialised
with size 65536 and desired flags device-local (staged policy), and `Relocate`
returns normally; but both buffers it creates have size 0 and the one copy it
records has size 0, because `Relocate` reads `m_size`, which `Initialize` never
sets (it stores 65536 in `m_host_size`). -/
theorem MemoryPool.Relocate_uses_unset_m_size :
    (MemoryPool.Initialize (sampleDriver VK_ERROR_INVALID_EXTERNAL_HANDLE 6) sampleContext
        ⟨65536, 1, 0⟩ zeroPool []).status = Status.ok ∧
      (MemoryPool.Initialize (sampleDriver VK_ERROR_INVALID_EXTERNAL_HANDLE 6) sampleContext
        ⟨65536, 1, 0⟩ zeroPool []).pool.RequiresRelocation = true ∧
      (MemoryPool.Initialize (sampleDriver VK_ERROR_INVALID_EXTERNAL_HANDLE 6) sampleContext
        ⟨65536, 1, 0⟩ zeroPool []).pool.m_host_size = 65536 ∧
      (MemoryPool.Initialize (sampleDriver VK_ERROR_INVALID_EXTERNAL_HANDLE 6) sampleContext
        ⟨65536, 1, 0⟩ zeroPool []).pool.m_size = 0 ∧
      (MemoryPool.Relocate (sampleDriver VK_ERROR_INVALID_EXTERNAL_HANDLE 6) 99
        (MemoryPool.Initialize (sampleDriver VK_ERROR_INVALID_EXTERNAL_HANDLE 6) sampleContext
          ⟨65536, 1, 0⟩ zeroPool []).pool
        (MemoryPool.Initialize (sampleDriver VK_ERROR_INVALID_EXTERNAL_HANDLE 6) sampleContext
          ⟨65536, 1, 0⟩ zeroPool []).trace).status = Status.ok ∧
      (MemoryPool.Relocate (sampleDriver VK_ERROR_INVALID_EXTERNAL_HANDLE 6) 99
        (MemoryPool.Initialize (sampleDriver VK_ERROR_INVALID_EXTERNAL_HANDLE 6) sampleContext
          ⟨65536, 1, 0⟩ zeroPool []).pool
        (MemoryPool.Initialize (sampleDriver VK_ERROR_INVALID_EXTERNAL_HANDLE 6) sampleContext
          ⟨65536, 1, 0⟩ zeroPool []).trace).trace
        = [NativeCall.vkGetMemoryHostPointerPropertiesEXT 7 0 0,
            NativeCall.vkAllocateMemory 7
              { pNext := none, allocationSize := 65536, memoryTypeIndex := 1 },
            NativeCall.vkAllocateMemory 7
              { pNext := some { handleType := 128, pHostPointer := 0 }
                allocationSize := 65536, memoryTypeIndex := 0 },
            NativeCall.vkCreateBuffer 7
              { size := 0, usage := 1, sharingMode := 0, queueFamilyIndexCount := 1,
                pQueueFamilyIndices := [0] },
            NativeCall.vkBindBufferMemory 7 8195 4098 0,
            NativeCall.vkCreateBuffer 7
              { size := 0, usage := 2, sharingMode := 0, queueFamilyIndexCount := 1,
                pQueueFamilyIndices := [0] },
            NativeCall.vkBindBufferMemory 7 8197 4097 0,
            NativeCall.vkCmdCopyBuffer 99 8195 8197 1
              [{ srcOffset := 0, dstOffset := 0, size := 0 }]] := by
  decide

/-! ## Teardown -/

/-- C9: `Finalize` is idempotent.  From every pool state, after one `Finalize` the
four handles are zero, and a second `Finalize` returns exactly the pool fields and
exactly the call trace of the first: it issues no destroy or free call, so no
handle is released twice. -/
theorem MemoryPool.Finalize_idempotent (context context2 : Context) (self : MemoryPool)
    (trace : List NativeCall) :
    (MemoryPool.Finalize context self trace).1.m_vk_host_buffer = 0 ∧
      (MemoryPool.Finalize context self trace).1.m_vk_host_memory = 0 ∧
      (MemoryPool.Finalize context self trace).1.m_vk_device_buffer = 0 ∧
      (MemoryPool.Finalize context self trace).1.m_vk_device_memory = 0 ∧
      MemoryPool.Finalize context2 (MemoryPool.Finalize context self trace).1
          (MemoryPool.Finalize context self trace).2
        = MemoryPool.Finalize context self trace := by
  have hzero : (MemoryPool.Finalize context self trace).1.m_vk_host_buffer = 0 ∧
      (MemoryPool.Finalize context self trace).1.m_vk_host_memory = 0 ∧
      (MemoryPool.Finalize context self trace).1.m_vk_device_buffer = 0 ∧
      (MemoryPool.Finalize context self trace).1.m_vk_device_memory = 0 := by
    unfold MemoryPool.Finalize
    dsimp only
    split_ifs <;> simp_all
  obtain ⟨h1, h2, h3, h4⟩ := hzero
  refine ⟨h1, h2, h3, h4, ?_⟩
  generalize MemoryPool.Finalize context self trace = first at h1 h2 h3 h4
  unfold MemoryPool.Finalize
  simp [h1, h2, h3, h4]

/-- C10: from every pool state, the calls `Finalize` adds to the trace are, in this
order, one `vkDestroyBuffer` of the host buffer iff that handle is non-zero, one
`vkFreeMemory` of the host memory iff that handle is non-zero, one `vkDestroyBuffer`
of the device buffer iff that handle is non-zero, and one `vkFreeMemory` of the
device memory iff that handle is non-zero; each of the four depends on its own
handle only. -/
theorem MemoryPool.Finalize_releases_each_nonzero_handle_once (context : Context)
    (self : MemoryPool) (trace : List NativeCall) :
    (MemoryPool.Finalize context self trace).2
      = trace ++
        (if self.m_vk_host_buffer = 0 then []
          else [NativeCall.vkDestroyBuffer context.GetDevice self.m_vk_host_buffer]) ++
        (if self.m_vk_host_memory = 0 then []
          else [NativeCall.vkFreeMemory context.GetDevice self.m_vk_host_memory]) ++
        (if self.m_vk_device_buffer = 0 then []
          else [NativeCall.vkDestroyBuffer context.GetDevice self.m_vk_device_buffer]) ++
        (if self.m_vk_device_memory = 0 then []
          else [NativeCall.vkFreeMemory context.GetDevice self.m_vk_device_memory]) := by
  unfold MemoryPool.Finalize
  dsimp only
  split_ifs <;> simp_all

/-- C11: in the calls `Finalize` adds to the trace, a memory object is not freed
before the buffer bound to it is destroyed.  When the host buffer and the host
memory are both held, the first two calls added are the destroy of the host buffer
and then the free of the host memory; when the device buffer and the device memory
are both held, the last two calls added are the destroy of the device buffer and
then the free of the device memory. -/
theorem MemoryPool.Finalize_destroys_buffer_before_memory (context : Context)
    (self : MemoryPool) (trace : List NativeCall) :
    (self.m_vk_host_buffer ≠ 0 → self.m_vk_host_memory ≠ 0 →
        ∃ rest, (MemoryPool.Finalize context self trace).2
          = trace ++
            [NativeCall.vkDestroyBuffer context.GetDevice self.m_vk_host_buffer,
              NativeCall.vkFreeMemory context.GetDevice self.m_vk_host_memory] ++ rest) ∧
      (self.m_vk_device_buffer ≠ 0 → self.m_vk_device_memory ≠ 0 →
        ∃ front, (MemoryPool.Finalize context self trace).2
          = trace ++ front ++
            [NativeCall.vkDestroyBuffer context.GetDevice self.m_vk_device_buffer,
              NativeCall.vkFreeMemory context.GetDevice self.m_vk_device_memory]) := by
  constructor
  · intro hb hm
    refine ⟨(if self.m_vk_device_buffer = 0 then []
        else [NativeCall.vkDestroyBuffer context.GetDevice self.m_vk_device_buffer]) ++
      (if self.m_vk_device_memory = 0 then []
        else [NativeCall.vkFreeMemory context.GetDevice self.m_vk_device_memory]), ?_⟩
    unfold MemoryPool.Finalize
    dsimp only
    split_ifs <;> simp_all
  · intro hb hm
    refine ⟨(if self.m_vk_host_buffer = 0 then []
        else [NativeCall.vkDestroyBuffer context.GetDevice self.m_vk_host_buffer]) ++
      (if self.m_vk_host_memory = 0 then []
        else [NativeCall.vkFreeMemory context.GetDevice self.m_vk_host_memory]), ?_⟩
    unfold MemoryPool.Finalize
    dsimp only
    split_ifs <;> simp_all

/-- C11 witness: the pool left by a staged-policy `Initialize` followed by `Relocate`
holds all four handles; `Finalize` adds destroy 8192, free 4098, destroy 8194,
free 4097, in this order. -/
theorem MemoryPool.Finalize_destroys_buffer_before_memory_witness :
    (MemoryPool.Finalize sampleContext
        (MemoryPool.Relocate (sampleDriver VK_ERROR_INVALID_EXTERNAL_HANDLE 6) 99
          (MemoryPool.Initialize (sampleDriver VK_ERROR_INVALID_EXTERNAL_HANDLE 6)
            sampleContext ⟨65536, 1, 0⟩ zeroPool []).pool []).pool []).2
      = [NativeCall.vkDestroyBuffer 7 8192, NativeCall.vkFreeMemory 7 4098,
          NativeCall.vkDestroyBuffer 7 8194, NativeCall.vkFreeMemory 7 4097] ∧
      ∃ rest, (MemoryPool.Finalize sampleContext
        (MemoryPool.Relocate (sampleDriver VK_ERROR_INVALID_EXTERNAL_HANDLE 6) 99
          (MemoryPool.Initialize (sampleDriver VK_ERROR_INVALID_EXTERNAL_HANDLE 6)
            sampleContext ⟨65536, 1, 0⟩ zeroPool []).pool []).pool []).2
        = [] ++ [NativeCall.vkDestroyBuffer 7 8192, NativeCall.vkFreeMemory 7 4098] ++ rest :=
  ⟨by decide,
    (MemoryPool.Finalize_destroys_buffer_before_memory sampleContext
      (MemoryPool.Relocate (sampleDriver VK_ERROR_INVALID_EXTERNAL_HANDLE 6) 99
        (MemoryPool.Initialize (sampleDriver VK_ERROR_INVALID_EXTERNAL_HANDLE 6)
          sampleContext ⟨65536, 1, 0⟩ zeroPool []).pool []).pool []).1
      (by decide) (by decide)⟩

/-! ## Initialization: what a normal return implies -/

/-- A normal return of `Initialize` on the direct-policy branch: the checks that
passed, the fields written and the two driver calls issued. -/
theorem MemoryPool.Initialize_ok_direct (drv : Driver) (context : Context)
    (pool_info : MemoryPoolInfo) (self : MemoryPool) (trace : List NativeCall)
    (hbits : (drv.vkGetMemoryHostPointerPropertiesEXT trace context.GetDevice 0
        pool_info.import_memory).2 &&& pool_info.memory_property_flags
          = pool_info.memory_property_flags)
    (hok : (MemoryPool.Initialize drv context pool_info self trace).status = Status.ok) :
    pool_info.import_memory = 0 ∧
      (drv.vkGetMemoryHostPointerPropertiesEXT trace context.GetDevice 0
        pool_info.import_memory).1 ≠ 0 ∧
      context.FindMemoryHeapIndex pool_info.memory_property_flags ≠ -1 ∧
      (drv.vkAllocateMemory (trace ++ [MemoryPool.Initialize.queryCall context pool_info])
        context.GetDevice
        (MemoryPool.Initialize.host_allocate_info pool_info
          (context.FindMemoryHeapIndex pool_info.memory_property_flags))).1 = VK_SUCCESS ∧
      MemoryPool.Initialize drv context pool_info self trace
        = ⟨Status.ok,
            { self with
              m_host_size := pool_info.size
              m_parent_context := context
              m_vk_memory_property_flags := pool_info.memory_property_flags
              m_requires_relocation := false
              m_is_device_memory := false
              m_vk_host_memory :=
                (drv.vkAllocateMemory
                  (trace ++ [MemoryPool.Initialize.queryCall context pool_info])
                  context.GetDevice
                  (MemoryPool.Initialize.host_allocate_info pool_info
                    (context.FindMemoryHeapIndex pool_info.memory_property_flags))).2 },
            trace ++ [MemoryPool.Initialize.queryCall context pool_info] ++
              [NativeCall.vkAllocateMemory context.GetDevice
                (MemoryPool.Initialize.host_allocate_info pool_info
                  (context.FindMemoryHeapIndex pool_info.memory_property_flags))]⟩ := by
  unfold MemoryPool.Initialize DD_ASSERT at hok ⊢
  unfold MemoryPool.Initialize.queryCall MemoryPool.Initialize.host_allocate_info
  dsimp only at hok ⊢
  simp only [hbits, beq_self_eq_true, if_true, bne_iff_ne, beq_iff_eq, ne_eq] at hok ⊢
  split_ifs at hok ⊢ <;>
    exact ⟨by assumption, by assumption, by assumption, by assumption, rfl⟩

/-- A normal return of `Initialize` on the staged-policy branch: the checks that
passed, the fields written and the three driver calls issued. -/
theorem MemoryPool.Initialize_ok_staged (drv : Driver) (context : Context)
    (pool_info : MemoryPoolInfo) (self : MemoryPool) (trace : List NativeCall)
    (hbits : (drv.vkGetMemoryHostPointerPropertiesEXT trace context.GetDevice 0
        pool_info.import_memory).2 &&& pool_info.memory_property_flags
          ≠ pool_info.memory_property_flags)
    (hok : (MemoryPool.Initialize drv context pool_info self trace).status = Status.ok) :
    pool_info.import_memory = 0 ∧
      (drv.vkGetMemoryHostPointerPropertiesEXT trace context.GetDevice 0
        pool_info.import_memory).1 ≠ 0 ∧
      context.FindMemoryHeapIndex pool_info.memory_property_flags ≠ -1 ∧
      (drv.vkAllocateMemory (trace ++ [MemoryPool.Initialize.queryCall context pool_info])
        context.GetDevice
        (MemoryPool.Initialize.device_allocate_info context pool_info)).1 = VK_SUCCESS ∧
      context.FindMemoryHeapIndex
        (VK_MEMORY_PROPERTY_HOST_VISIBLE_BIT ||| VK_MEMORY_PROPERTY_HOST_COHERENT_BIT) ≠ -1 ∧
      (drv.vkAllocateMemory
        (trace ++ [MemoryPool.Initialize.queryCall context pool_info] ++
          [NativeCall.vkAllocateMemory context.GetDevice
            (MemoryPool.Initialize.device_allocate_info context pool_info)])
        context.GetDevice
        (MemoryPool.Initialize.host_allocate_info pool_info
          (context.FindMemoryHeapIndex
            (VK_MEMORY_PROPERTY_HOST_VISIBLE_BIT ||| VK_MEMORY_PROPERTY_HOST_COHERENT_BIT)))).1
        = VK_SUCCESS ∧
      MemoryPool.Initialize drv context pool_info self trace
        = ⟨Status.ok,
            { self with
              m_host_size := pool_info.size
              m_parent_context := context
              m_vk_memory_property_flags := pool_info.memory_property_flags
              m_requires_relocation := true
              m_is_device_memory := true
              m_vk_device_memory :=
                (drv.vkAllocateMemory
                  (trace ++ [MemoryPool.Initialize.queryCall context pool_info])
                  context.GetDevice
                  (MemoryPool.Initialize.device_allocate_info context pool_info)).2
              m_vk_host_memory :=
                (drv.vkAllocateMemory
                  (trace ++ [MemoryPool.Initialize.queryCall context pool_info] ++
                    [NativeCall.vkAllocateMemory context.GetDevice
                      (MemoryPool.Initialize.device_allocate_info context pool_info)])
                  context.GetDevice
                  (MemoryPool.Initialize.host_allocate_info pool_info
                    (context.FindMemoryHeapIndex
                      (VK_MEMORY_PROPERTY_HOST_VISIBLE_BIT |||
                        VK_MEMORY_PROPERTY_HOST_COHERENT_BIT)))).2 },
            trace ++ [MemoryPool.Initialize.queryCall context pool_info] ++
              [NativeCall.vkAllocateMemory context.GetDevice
                (MemoryPool.Initialize.device_allocate_info context pool_info)] ++
              [NativeCall.vkAllocateMemory context.GetDevice
                (MemoryPool.Initialize.host_allocate_info pool_info
                  (context.FindMemoryHeapIndex
                    (VK_MEMORY_PROPERTY_HOST_VISIBLE_BIT |||
                      VK_MEMORY_PROPERTY_HOST_COHERENT_BIT)))]⟩ := by
  unfold MemoryPool.Initialize DD_ASSERT at hok ⊢
  unfold MemoryPool.Initialize.queryCall MemoryPool.Initialize.host_allocate_info
    MemoryPool.Initialize.device_allocate_info
  dsimp only at hok ⊢
  simp only [hbits, if_false, bne_iff_ne, beq_iff_eq, ne_eq] at hok ⊢
  split_ifs at hok ⊢ <;>
    exact ⟨by assumption, by assumption, by assumption, by assumption, by assumption,
      by assumption, rfl⟩

/-! ## Initialization: handles, allocations and memory-type indices -/

/-- `Initialize` never writes `m_vk_device_memory` on the direct-policy branch. -/
theorem MemoryPool.Initialize_direct_keeps_device_memory (drv : Driver) (context : Context)
    (pool_info : MemoryPoolInfo) (self : MemoryPool) (trace : List NativeCall)
    (hbits : (drv.vkGetMemoryHostPointerPropertiesEXT trace context.GetDevice 0
        pool_info.import_memory).2 &&& pool_info.memory_property_flags
          = pool_info.memory_property_flags) :
    (MemoryPool.Initialize drv context pool_info self trace).pool.m_vk_device_memory
      = self.m_vk_device_memory := by
  unfold MemoryPool.Initialize DD_ASSERT
  dsimp only
  simp only [hbits, beq_self_eq_true, if_true]
  split_ifs <;> rfl

/-- C12 (counterexample): a pool whose `m_vk_device_memory` holds 5 beforehand is
initialised under the direct policy by a driver that returns non-null handles;
`Initialize` returns normally, the direct policy is selected, and the device memory
handle is still 5, so it is non-null although the staged policy was not selected. -/
theorem MemoryPool.Initialize_direct_leaves_stale_device_handle :
    (MemoryPool.Initialize (sampleDriver VK_ERROR_INVALID_EXTERNAL_HANDLE 6) sampleContext
        ⟨65536, 6, 0⟩ { zeroPool with m_vk_device_memory := 5 } []).status = Status.ok ∧
      (MemoryPool.Initialize (sampleDriver VK_ERROR_INVALID_EXTERNAL_HANDLE 6) sampleContext
        ⟨65536, 6, 0⟩ { zeroPool with m_vk_device_memory := 5 } []).pool.m_vk_device_memory
          = 5 ∧
      ¬ ((MemoryPool.Initialize (sampleDriver VK_ERROR_INVALID_EXTERNAL_HANDLE 6)
            sampleContext ⟨65536, 6, 0⟩
            { zeroPool with m_vk_device_memory := 5 } []).pool.m_vk_device_memory ≠ 0 ↔
          (MemoryPool.Initialize (sampleDriver VK_ERROR_INVALID_EXTERNAL_HANDLE 6)
            sampleContext ⟨65536, 6, 0⟩
            { zeroPool with m_vk_device_memory := 5 } []).pool.RequiresRelocation = true) := by
  decide

/-- C12 (amended): after every `Initialize` that returns normally, with a driver whose
successful allocations return non-null handles and whatever the fields held
beforehand, the host memory handle is non-null, and the device memory handle is
non-null if and only if the staged policy was selected or the handle was already
non-null beforehand (the direct policy leaves it as it was). -/
theorem MemoryPool.Initialize_handles_after_success (drv : Driver) (context : Context)
    (pool_info : MemoryPoolInfo) (self : MemoryPool) (trace : List NativeCall)
    (hdrv : ∀ (history : List NativeCall) (device : Nat) (info : VkMemoryAllocateInfo),
      (drv.vkAllocateMemory history device info).1 = VK_SUCCESS →
        (drv.vkAllocateMemory history device info).2 ≠ 0)
    (hok : (MemoryPool.Initialize drv context pool_info self trace).status = Status.ok) :
    (MemoryPool.Initialize drv context pool_info self trace).pool.m_vk_host_memory ≠ 0 ∧
      ((MemoryPool.Initialize drv context pool_info self trace).pool.m_vk_device_memory ≠ 0 ↔
        ((MemoryPool.Initialize drv context pool_info self trace).pool.RequiresRelocation
            = true ∨ self.m_vk_device_memory ≠ 0)) := by
  by_cases hbits : (drv.vkGetMemoryHostPointerPropertiesEXT trace context.GetDevice 0
      pool_info.import_memory).2 &&& pool_info.memory_property_flags
        = pool_info.memory_property_flags
  · obtain ⟨_, _, _, himport, heq⟩ :=
      MemoryPool.Initialize_ok_direct drv context pool_info self trace hbits hok
    rw [heq]
    exact ⟨hdrv _ _ _ himport, by simp [MemoryPool.RequiresRelocation]⟩
  · obtain ⟨_, _, _, hdevice, _, himport, heq⟩ :=
      MemoryPool.Initialize_ok_staged drv context pool_info self trace hbits hok
    rw [heq]
    exact ⟨hdrv _ _ _ himport, by simpa [MemoryPool.RequiresRelocation] using hdrv _ _ _ hdevice⟩

/-- C12 witness: a zero-initialised pool under the staged policy; the host handle is
4098 and the device handle 4097. -/
theorem MemoryPool.Initialize_handles_after_success_witness :
    (MemoryPool.Initialize (sampleDriver VK_ERROR_INVALID_EXTERNAL_HANDLE 6) sampleContext
        ⟨65536, 1, 0⟩ zeroPool []).status = Status.ok ∧
      (MemoryPool.Initialize (sampleDriver VK_ERROR_INVALID_EXTERNAL_HANDLE 6) sampleContext
        ⟨65536, 1, 0⟩ zeroPool []).pool.m_vk_host_memory ≠ 0 ∧
      ((MemoryPool.Initialize (sampleDriver VK_ERROR_INVALID_EXTERNAL_HANDLE 6) sampleContext
          ⟨65536, 1, 0⟩ zeroPool []).pool.m_vk_device_memory ≠ 0 ↔
        ((MemoryPool.Initialize (sampleDriver VK_ERROR_INVALID_EXTERNAL_HANDLE 6)
            sampleContext ⟨65536, 1, 0⟩ zeroPool []).pool.RequiresRelocation = true ∨
          zeroPool.m_vk_device_memory ≠ 0)) :=
  ⟨by decide,
    MemoryPool.Initialize_handles_after_success
      (sampleDriver VK_ERROR_INVALID_EXTERNAL_HANDLE 6) sampleContext ⟨65536, 1, 0⟩ zeroPool []
      (fun history _ _ _ => by simp [sampleDriver]) (by decide)⟩

/-! ## The relocation flag along a sequence of calls -/

/-- `Finalize` does not write `m_requires_relocation`. -/
theorem MemoryPool.Finalize_preserves_flag (context : Context) (self : MemoryPool)
    (trace : List NativeCall) :
    (MemoryPool.Finalize context self trace).1.RequiresRelocation
      = self.RequiresRelocation := by
  unfold MemoryPool.Finalize MemoryPool.RequiresRelocation
  dsimp only
  split_ifs <;> rfl

/-- No call turns the flag on: if it is false before a call, it is false after it. -/
theorem PoolOp.apply_flag_stays_false (drv : Driver) (op : PoolOp)
    (state : MemoryPool × List NativeCall)
    (hflag : state.1.RequiresRelocation = false) :
    (op.apply drv state).1.RequiresRelocation = false := by
  cases op with
  | Relocate vk_command_buffer =>
    show (MemoryPool.Relocate drv vk_command_buffer state.1 state.2).pool.RequiresRelocation
      = false
    unfold MemoryPool.RequiresRelocation at hflag
    unfold MemoryPool.Relocate
    simp [hflag, MemoryPool.RequiresRelocation]
  | GetDeviceMemory => exact hflag
  | RequiresRelocation => exact hflag
  | Finalize context =>
    show (MemoryPool.Finalize context state.1 state.2).1.RequiresRelocation = false
    rw [MemoryPool.Finalize_preserves_flag]
    exact hflag

/-- A call that turns the flag off is a `Relocate` that returned normally. -/
theorem PoolOp.apply_flag_cleared_by_relocate (drv : Driver) (op : PoolOp)
    (state : MemoryPool × List NativeCall)
    (hbefore : state.1.RequiresRelocation = true)
    (hafter : (op.apply drv state).1.RequiresRelocation = false) :
    ∃ vk_command_buffer, op = PoolOp.Relocate vk_command_buffer ∧
      (MemoryPool.Relocate drv vk_command_buffer state.1 state.2).status = Status.ok := by
  cases op with
  | Relocate vk_command_buffer =>
    refine ⟨vk_command_buffer, rfl, ?_⟩
    have hafter2 : (MemoryPool.Relocate drv vk_command_buffer state.1
        state.2).pool.m_requires_relocation = false := hafter
    unfold MemoryPool.RequiresRelocation at hbefore
    unfold MemoryPool.Relocate DD_ASSERT at hafter2 ⊢
    dsimp only at hafter2 ⊢
    simp only [hbefore, beq_self_eq_true, if_true] at hafter2 ⊢
    split_ifs at hafter2 ⊢
    rfl
  | GetDeviceMemory =>
    have hafter2 : state.1.RequiresRelocation = false := hafter
    rw [hbefore] at hafter2
    cases hafter2
  | RequiresRelocation =>
    have hafter2 : state.1.RequiresRelocation = false := hafter
    rw [hbefore] at hafter2
    cases hafter2
  | Finalize context =>
    have hkeep := MemoryPool.Finalize_preserves_flag context state.1 state.2
    have hafter2 : (MemoryPool.Finalize context state.1 state.2).1.RequiresRelocation
        = false := hafter
    rw [hkeep, hbefore] at hafter2
    cases hafter2

/-- The flag history starts with the current value of the flag. -/
theorem flagHistory_head (drv : Driver) (ops : List PoolOp)
    (state : MemoryPool × List NativeCall) :
    ∃ later, flagHistory drv ops state = state.1.RequiresRelocation :: later := by
  cases ops with
  | nil => exact ⟨[], rfl⟩
  | cons op rest => exact ⟨flagHistory drv rest (op.apply drv state), rfl⟩

/-- Once the flag is false, every later value of the flag is false. -/
theorem flagHistory_all_false (drv : Driver) (ops : List PoolOp) :
    ∀ (state : MemoryPool × List NativeCall), state.1.RequiresRelocation = false →
      ∀ value ∈ flagHistory drv ops state, value = false := by
  induction ops with
  | nil =>
    intro state hflag value hmem
    simp only [flagHistory, List.mem_singleton] at hmem
    rw [hmem, hflag]
  | cons op rest ih =>
    intro state hflag value hmem
    simp only [flagHistory, List.mem_cons] at hmem
    rcases hmem with hhead | htail
    · rw [hhead, hflag]
    · exact ih (op.apply drv state) (PoolOp.apply_flag_stays_false drv op state hflag)
        value htail

/-- A list of flag values that are all false has no change in it. -/
theorem countFlips_all_false (values : List Bool) (hall : ∀ value ∈ values, value = false) :
    countFlips values = 0 := by
  induction values with
  | nil => rfl
  | cons a rest ih =>
    cases rest with
    | nil => rfl
    | cons b tail =>
      have ha : a = false := hall a (by simp)
      have hb : b = false := hall b (by simp)
      have hrest : countFlips (b :: tail) = 0 :=
        ih (fun value hmem => hall value (List.mem_cons_of_mem a hmem))
      show (if a = b then 0 else 1) + countFlips (b :: tail) = 0
      rw [hrest, ha, hb]
      rfl

/-- C13: along every sequence of `Relocate`, `GetDeviceMemory`, `RequiresRelocation` and
`Finalize` calls, from any state of the pool (in particular the one a successful
`Initialize` leaves): no value of the flag is true after a value that was false, the
flag changes at most once, and a call that takes the flag from true to false is a
`Relocate` that ran to its end (all its assertions passed). -/
theorem requires_relocation_only_cleared_once (drv : Driver) (ops : List PoolOp)
    (state : MemoryPool × List NativeCall) :
    List.Pairwise (fun earlier later => later = true → earlier = true)
        (flagHistory drv ops state) ∧
      countFlips (flagHistory drv ops state) ≤ 1 ∧
      ∀ (op : PoolOp) (current : MemoryPool × List NativeCall),
        current.1.RequiresRelocation = true →
        (op.apply drv current).1.RequiresRelocation = false →
          ∃ vk_command_buffer, op = PoolOp.Relocate vk_command_buffer ∧
            (MemoryPool.Relocate drv vk_command_buffer current.1 current.2).status
              = Status.ok := by
  refine ⟨?_, ?_, fun op current => PoolOp.apply_flag_cleared_by_relocate drv op current⟩
  · induction ops generalizing state with
    | nil => simp [flagHistory]
    | cons op rest ih =>
      simp only [flagHistory, List.pairwise_cons]
      refine ⟨?_, ih (op.apply drv state)⟩
      intro later hmem hlater
      by_contra hnot
      have hfalse : state.1.RequiresRelocation = false := by
        simpa using hnot
      have := flagHistory_all_false drv rest (op.apply drv state)
        (PoolOp.apply_flag_stays_false drv op state hfalse) later hmem
      rw [this] at hlater
      cases hlater
  · induction ops generalizing state with
    | nil => simp [flagHistory, countFlips]
    | cons op rest ih =>
      obtain ⟨later, hlater⟩ := flagHistory_head drv rest (op.apply drv state)
      have hstep := ih (op.apply drv state)
      simp only [flagHistory]
      rw [hlater] at hstep ⊢
      by_cases hsame : state.1.RequiresRelocation = (op.apply drv state).1.RequiresRelocation
      · simpa [countFlips, hsame] using hstep
      · have hafter : (op.apply drv state).1.RequiresRelocation = false := by
          by_contra hnot
          have htrue : (op.apply drv state).1.RequiresRelocation = true := by simpa using hnot
          have hbefore : state.1.RequiresRelocation = true := by
            by_contra hnot2
            have hfalse : state.1.RequiresRelocation = false := by simpa using hnot2
            have := PoolOp.apply_flag_stays_false drv op state hfalse
            rw [htrue] at this
            cases this
          exact hsame (hbefore.trans htrue.symm)
        have hzero : countFlips ((op.apply drv state).1.RequiresRelocation :: later) = 0 := by
          rw [← hlater]
          exact countFlips_all_false _
            (flagHistory_all_false drv rest (op.apply drv state) hafter)
        simp [countFlips, hsame, hzero]

/-! ## Relocation: failure of a setup step -/

/-- Where a call can sit in a trace extended by five calls. -/
theorem trace_split_five {α : Type} (t before after : List α) (c1 c2 c3 c4 c5 call : α)
    (hsplit : t ++ [c1] ++ [c2] ++ [c3] ++ [c4] ++ [c5] = t ++ before ++ call :: after) :
    (before = [] ∧ call = c1) ∨ (before = [c1] ∧ call = c2) ∨
      (before = [c1, c2] ∧ call = c3) ∨ (before = [c1, c2, c3] ∧ call = c4) ∨
      (before = [c1, c2, c3, c4] ∧ call = c5) := by
  simp only [List.append_assoc, List.append_cancel_left_eq, List.singleton_append,
    List.cons_append, List.nil_append] at hsplit
  rcases before with _ | ⟨b1, _ | ⟨b2, _ | ⟨b3, _ | ⟨b4, _ | ⟨b5, rest⟩⟩⟩⟩⟩ <;>
    simp at hsplit <;> simp_all

/-- For a pool whose relocation is pending, `Relocate` either returns normally or
stops at one of the four setup assertions (lines 119, 122, 133, 136).  When it
stops, `requires_relocation` is still true, no copy command has been recorded, and
the last call recorded is a buffer creation or a bind that the driver did not
answer with `VK_SUCCESS`; `requires_relocation` is false afterwards only if
`Relocate` returned normally, and then every setup call was answered
`VK_SUCCESS`. -/
theorem MemoryPool.Relocate_stop_is_refused_setup_call (drv : Driver)
    (vk_command_buffer : Nat) (self : MemoryPool) (trace : List NativeCall)
    (hflag : self.RequiresRelocation = true) :
    ((MemoryPool.Relocate drv vk_command_buffer self trace).status = Status.ok ∨
        (MemoryPool.Relocate drv vk_command_buffer self trace).status
          = Status.assertFailed 119 ∨
        (MemoryPool.Relocate drv vk_command_buffer self trace).status
          = Status.assertFailed 122 ∨
        (MemoryPool.Relocate drv vk_command_buffer self trace).status
          = Status.assertFailed 133 ∨
        (MemoryPool.Relocate drv vk_command_buffer self trace).status
          = Status.assertFailed 136) ∧
      ((MemoryPool.Relocate drv vk_command_buffer self trace).status ≠ Status.ok →
        (MemoryPool.Relocate drv vk_command_buffer self trace).pool.RequiresRelocation
            = true ∧
          ((MemoryPool.Relocate drv vk_command_buffer self trace).trace.drop
            trace.length).countP NativeCall.isCopy = 0 ∧
          ∃ lastCall, (MemoryPool.Relocate drv vk_command_buffer self trace).trace
              = (MemoryPool.Relocate drv vk_command_buffer self trace).trace.dropLast
                ++ [lastCall] ∧
            (lastCall.isBufferCreation = true ∨ lastCall.isBind = true) ∧
            ((∀ device info, lastCall = NativeCall.vkCreateBuffer device info →
                (drv.vkCreateBuffer
                  (MemoryPool.Relocate drv vk_command_buffer self trace).trace.dropLast
                  device info).1 ≠ VK_SUCCESS) ∧
              (∀ device buffer memory offset,
                lastCall = NativeCall.vkBindBufferMemory device buffer memory offset →
                  drv.vkBindBufferMemory
                    (MemoryPool.Relocate drv vk_command_buffer self trace).trace.dropLast
                    device buffer memory offset ≠ VK_SUCCESS))) ∧
      ((MemoryPool.Relocate drv vk_command_buffer self trace).pool.RequiresRelocation
          = false →
        (MemoryPool.Relocate drv vk_command_buffer self trace).status = Status.ok ∧
          ∀ before call after,
            (MemoryPool.Relocate drv vk_command_buffer self trace).trace
                = trace ++ before ++ call :: after →
              (∀ device info, call = NativeCall.vkCreateBuffer device info →
                (drv.vkCreateBuffer (trace ++ before) device info).1 = VK_SUCCESS) ∧
              (∀ device buffer memory offset,
                call = NativeCall.vkBindBufferMemory device buffer memory offset →
                  drv.vkBindBufferMemory (trace ++ before) device buffer memory offset
                    = VK_SUCCESS)) := by
  unfold MemoryPool.RequiresRelocation at hflag ⊢
  unfold MemoryPool.Relocate DD_ASSERT
  dsimp only
  simp only [hflag, beq_self_eq_true, if_true, beq_iff_eq]
  split_ifs with h119 h122 h133 h136
  · refine ⟨Or.inl rfl, fun hne => absurd rfl hne, fun _ => ⟨rfl, ?_⟩⟩
    intro before call after hsplit
    rcases trace_split_five _ _ _ _ _ _ _ _ _ hsplit with
      ⟨hb, hc⟩ | ⟨hb, hc⟩ | ⟨hb, hc⟩ | ⟨hb, hc⟩ | ⟨hb, hc⟩
    · subst hb hc
      refine ⟨fun device info heq => ?_, fun device buffer memory offset heq => ?_⟩
      · injection heq with hd hi
        subst hd hi
        simpa using h119
      · cases heq
    · subst hb hc
      refine ⟨fun device info heq => ?_, fun device buffer memory offset heq => ?_⟩
      · cases heq
      · injection heq with hd hbuf hmem hoff
        subst hd hbuf hmem hoff
        simpa using h122
    · subst hb hc
      refine ⟨fun device info heq => ?_, fun device buffer memory offset heq => ?_⟩
      · injection heq with hd hi
        subst hd hi
        simpa using h133
      · cases heq
    · subst hb hc
      refine ⟨fun device info heq => ?_, fun device buffer memory offset heq => ?_⟩
      · cases heq
      · injection heq with hd hbuf hmem hoff
        subst hd hbuf hmem hoff
        simpa using h136
    · subst hb hc
      refine ⟨fun device info heq => ?_, fun device buffer memory offset heq => ?_⟩
      · cases heq
      · cases heq
  · refine ⟨by simp, fun _ => ⟨rfl, by simp [NativeCall.isCopy], ?_⟩, fun hfalse => ?_⟩
    · refine ⟨_, by rw [List.dropLast_concat], ?_, ?_, ?_⟩
      · exact Or.inr rfl
      · intro device info heq
        cases heq
      · intro device buffer memory offset heq
        injection heq with hd hbuf hmem hoff
        subst hd hbuf hmem hoff
        rw [List.dropLast_concat]
        assumption
    · exact hfalse.elim
  · refine ⟨by simp, fun _ => ⟨rfl, by simp [NativeCall.isCopy], ?_⟩, fun hfalse => ?_⟩
    · refine ⟨_, by rw [List.dropLast_concat], ?_, ?_, ?_⟩
      · exact Or.inl rfl
      · intro device info heq
        injection heq with hd hi
        subst hd hi
        rw [List.dropLast_concat]
        assumption
      · intro device buffer memory offset heq
        cases heq
    · exact hfalse.elim
  · refine ⟨by simp, fun _ => ⟨rfl, by simp [NativeCall.isCopy], ?_⟩, fun hfalse => ?_⟩
    · refine ⟨_, by rw [List.dropLast_concat], ?_, ?_, ?_⟩
      · exact Or.inr rfl
      · intro device info heq
        cases heq
      · intro device buffer memory offset heq
        injection heq with hd hbuf hmem hoff
        subst hd hbuf hmem hoff
        rw [List.dropLast_concat]
        assumption
    · exact hfalse.elim
  · refine ⟨by simp, fun _ => ⟨rfl, by simp [NativeCall.isCopy], ?_⟩, fun hfalse => ?_⟩
    · refine ⟨_, by rw [List.dropLast_concat], ?_, ?_, ?_⟩
      · exact Or.inl rfl
      · intro device info heq
        injection heq with hd hi
        subst hd hi
        rw [List.dropLast_concat]
        assumption
      · intro device buffer memory offset heq
        cases heq
    · exact hfalse.elim

/-- The outcome of a pending `Relocate`, by the driver's answers to the four setup
calls: the first answer that is not `VK_SUCCESS` stops it at the assertion after
that call, with the handles stored so far and the calls recorded so far. -/
theorem MemoryPool.Relocate_pending_outcome (drv : Driver) (vk_command_buffer : Nat)
    (self : MemoryPool) (trace : List NativeCall)
    (hflag : self.m_requires_relocation = true) :
    MemoryPool.Relocate drv vk_command_buffer self trace
      = if MemoryPool.Relocate.result0 drv self trace = VK_SUCCESS then
          if MemoryPool.Relocate.result1 drv self trace = VK_SUCCESS then
            if MemoryPool.Relocate.result2 drv self trace = VK_SUCCESS then
              if MemoryPool.Relocate.result3 drv self trace = VK_SUCCESS then
                ⟨Status.ok,
                  { self with
                    m_vk_host_buffer := MemoryPool.Relocate.host_buffer drv self trace
                    m_vk_device_buffer := MemoryPool.Relocate.device_buffer drv self trace
                    m_requires_relocation := false },
                  trace ++ MemoryPool.Relocate.setupCalls drv self trace
                    ++ [MemoryPool.Relocate.copyCall drv vk_command_buffer self trace]⟩
              else
                ⟨Status.assertFailed 136,
                  { self with
                    m_vk_host_buffer := MemoryPool.Relocate.host_buffer drv self trace
                    m_vk_device_buffer := MemoryPool.Relocate.device_buffer drv self trace },
                  trace ++ MemoryPool.Relocate.setupCalls drv self trace⟩
            else
              ⟨Status.assertFailed 133,
                { self with
                  m_vk_host_buffer := MemoryPool.Relocate.host_buffer drv self trace
                  m_vk_device_buffer := MemoryPool.Relocate.device_buffer drv self trace },
                trace ++ (MemoryPool.Relocate.setupCalls drv self trace).take 3⟩
          else
            ⟨Status.assertFailed 122,
              { self with
                m_vk_host_buffer := MemoryPool.Relocate.host_buffer drv self trace },
              trace ++ (MemoryPool.Relocate.setupCalls drv self trace).take 2⟩
        else
          ⟨Status.assertFailed 119,
            { self with m_vk_host_buffer := MemoryPool.Relocate.host_buffer drv self trace },
            trace ++ (MemoryPool.Relocate.setupCalls drv self trace).take 1⟩ := by
  unfold MemoryPool.Relocate DD_ASSERT
  dsimp only
  simp only [MemoryPool.Relocate.result0, MemoryPool.Relocate.result1,
    MemoryPool.Relocate.result2, MemoryPool.Relocate.result3,
    MemoryPool.Relocate.setupCalls, MemoryPool.Relocate.copyCall,
    MemoryPool.Relocate.host_buffer, MemoryPool.Relocate.device_buffer,
    MemoryPool.Relocate.src_buffer_info, MemoryPool.Relocate.dst_buffer_info,
    hflag, beq_self_eq_true, if_true, beq_iff_eq, List.append_assoc,
    List.singleton_append, List.cons_append, List.nil_append, List.take_succ_cons,
    List.take_zero]

/-- C14: for a pool whose relocation is pending, each refused setup step makes
`Relocate` stop there.  If the driver does not answer `VK_SUCCESS` to the creation of
the copy-source buffer, `Relocate` stops at line 119; if it does but refuses the bind
of that buffer, at line 122; if the first two succeed and it refuses the creation of
the copy-destination buffer, at line 133; if the first three succeed and it refuses
the bind of that buffer, at line 136.  In each of these runs `requires_relocation` is
still true and the calls recorded are the setup calls up to the refused one, none
of which is a copy command.  If all four are answered `VK_SUCCESS`, `Relocate`
returns normally with `requires_relocation` false, having recorded the four setup
calls and then the copy.  Hence `requires_relocation` is false after `Relocate` only
when all four setup steps succeeded, and a run that does not return normally has
kept the flag and recorded no copy. -/
theorem MemoryPool.Relocate_setup_failure_keeps_flag (drv : Driver)
    (vk_command_buffer : Nat) (self : MemoryPool) (trace : List NativeCall)
    (hflag : self.RequiresRelocation = true) :
    (MemoryPool.Relocate.result0 drv self trace ≠ VK_SUCCESS →
        (MemoryPool.Relocate drv vk_command_buffer self trace).status
            = Status.assertFailed 119 ∧
          (MemoryPool.Relocate drv vk_command_buffer self trace).pool.RequiresRelocation
            = true ∧
          (MemoryPool.Relocate drv vk_command_buffer self trace).trace
            = trace ++ (MemoryPool.Relocate.setupCalls drv self trace).take 1) ∧
      (MemoryPool.Relocate.result0 drv self trace = VK_SUCCESS →
        MemoryPool.Relocate.result1 drv self trace ≠ VK_SUCCESS →
        (MemoryPool.Relocate drv vk_command_buffer self trace).status
            = Status.assertFailed 122 ∧
          (MemoryPool.Relocate drv vk_command_buffer self trace).pool.RequiresRelocation
            = true ∧
          (MemoryPool.Relocate drv vk_command_buffer self trace).trace
            = trace ++ (MemoryPool.Relocate.setupCalls drv self trace).take 2) ∧
      (MemoryPool.Relocate.result0 drv self trace = VK_SUCCESS →
        MemoryPool.Relocate.result1 drv self trace = VK_SUCCESS →
        MemoryPool.Relocate.result2 drv self trace ≠ VK_SUCCESS →
        (MemoryPool.Relocate drv vk_command_buffer self trace).status
            = Status.assertFailed 133 ∧
          (MemoryPool.Relocate drv vk_command_buffer self trace).pool.RequiresRelocation
            = true ∧
          (MemoryPool.Relocate drv vk_command_buffer self trace).trace
            = trace ++ (MemoryPool.Relocate.setupCalls drv self trace).take 3) ∧
      (MemoryPool.Relocate.result0 drv self trace = VK_SUCCESS →
        MemoryPool.Relocate.result1 drv self trace = VK_SUCCESS →
        MemoryPool.Relocate.result2 drv self trace = VK_SUCCESS →
        MemoryPool.Relocate.result3 drv self trace ≠ VK_SUCCESS →
        (MemoryPool.Relocate drv vk_command_buffer self trace).status
            = Status.assertFailed 136 ∧
          (MemoryPool.Relocate drv vk_command_buffer self trace).pool.RequiresRelocation
            = true ∧
          (MemoryPool.Relocate drv vk_command_buffer self trace).trace
            = trace ++ MemoryPool.Relocate.setupCalls drv self trace) ∧
      (MemoryPool.Relocate.result0 drv self trace = VK_SUCCESS →
        MemoryPool.Relocate.result1 drv self trace = VK_SUCCESS →
        MemoryPool.Relocate.result2 drv self trace = VK_SUCCESS →
        MemoryPool.Relocate.result3 drv self trace = VK_SUCCESS →
        (MemoryPool.Relocate drv vk_command_buffer self trace).status = Status.ok ∧
          (MemoryPool.Relocate drv vk_command_buffer self trace).pool.RequiresRelocation
            = false ∧
          (MemoryPool.Relocate drv vk_command_buffer self trace).trace
            = trace ++ MemoryPool.Relocate.setupCalls drv self trace
              ++ [MemoryPool.Relocate.copyCall drv vk_command_buffer self trace]) ∧
      (MemoryPool.Relocate.setupCalls drv self trace).countP NativeCall.isCopy = 0 ∧
      (MemoryPool.Relocate.copyCall drv vk_command_buffer self trace).isCopy = true ∧
      ((MemoryPool.Relocate drv vk_command_buffer self trace).status ≠ Status.ok →
        (MemoryPool.Relocate drv vk_command_buffer self trace).pool.RequiresRelocation
            = true ∧
          ((MemoryPool.Relocate drv vk_command_buffer self trace).trace.drop
            trace.length).countP NativeCall.isCopy = 0 ∧
          (MemoryPool.Relocate.result0 drv self trace ≠ VK_SUCCESS ∨
            MemoryPool.Relocate.result1 drv self trace ≠ VK_SUCCESS ∨
            MemoryPool.Relocate.result2 drv self trace ≠ VK_SUCCESS ∨
            MemoryPool.Relocate.result3 drv self trace ≠ VK_SUCCESS)) ∧
      ((MemoryPool.Relocate drv vk_command_buffer self trace).pool.RequiresRelocation
          = false →
        (MemoryPool.Relocate drv vk_command_buffer self trace).status = Status.ok ∧
          MemoryPool.Relocate.result0 drv self trace = VK_SUCCESS ∧
          MemoryPool.Relocate.result1 drv self trace = VK_SUCCESS ∧
          MemoryPool.Relocate.result2 drv self trace = VK_SUCCESS ∧
          MemoryPool.Relocate.result3 drv self trace = VK_SUCCESS) := by
  unfold MemoryPool.RequiresRelocation at hflag ⊢
  have hsetup : (MemoryPool.Relocate.setupCalls drv self trace).countP NativeCall.isCopy
      = 0 := rfl
  rw [MemoryPool.Relocate_pending_outcome drv vk_command_buffer self trace hflag]
  by_cases h0 : MemoryPool.Relocate.result0 drv self trace = VK_SUCCESS
  · by_cases h1 : MemoryPool.Relocate.result1 drv self trace = VK_SUCCESS
    · by_cases h2 : MemoryPool.Relocate.result2 drv self trace = VK_SUCCESS
      · by_cases h3 : MemoryPool.Relocate.result3 drv self trace = VK_SUCCESS
        · simp [h0, h1, h2, h3, hflag, hsetup, MemoryPool.Relocate.copyCall,
            NativeCall.isCopy]
        · simp [h0, h1, h2, h3, hflag, hsetup, MemoryPool.Relocate.copyCall,
            NativeCall.isCopy]
      · simp [h0, h1, h2, hflag, hsetup, MemoryPool.Relocate.copyCall,
          MemoryPool.Relocate.setupCalls, NativeCall.isCopy]
    · simp [h0, h1, hflag, hsetup, MemoryPool.Relocate.copyCall,
        MemoryPool.Relocate.setupCalls, NativeCall.isCopy]
  · simp [h0, hflag, hsetup, MemoryPool.Relocate.copyCall,
      MemoryPool.Relocate.setupCalls, NativeCall.isCopy]

/-- C14 witness: a pool left by a staged-policy `Initialize`, and a driver that
refuses the copy-destination buffer.  `Relocate` stops at line 133 with the flag
still true and no copy command recorded: the calls it added are the creation and
the bind of the copy-source buffer and the refused creation. -/
theorem MemoryPool.Relocate_setup_failure_keeps_flag_witness :
    (MemoryPool.Initialize refusingDriver sampleContext ⟨65536, 1, 0⟩ zeroPool
        []).pool.RequiresRelocation = true ∧
      MemoryPool.Relocate.result2 refusingDriver
        (MemoryPool.Initialize refusingDriver sampleContext ⟨65536, 1, 0⟩ zeroPool []).pool
        (MemoryPool.Initialize refusingDriver sampleContext ⟨65536, 1, 0⟩ zeroPool
          []).trace = 4294967294 ∧
      ((MemoryPool.Relocate refusingDriver 99
        (MemoryPool.Initialize refusingDriver sampleContext ⟨65536, 1, 0⟩ zeroPool []).pool
        (MemoryPool.Initialize refusingDriver sampleContext ⟨65536, 1, 0⟩ zeroPool
          []).trace).status = Status.assertFailed 133 ∧
      (MemoryPool.Relocate refusingDriver 99
        (MemoryPool.Initialize refusingDriver sampleContext ⟨65536, 1, 0⟩ zeroPool []).pool
        (MemoryPool.Initialize refusingDriver sampleContext ⟨65536, 1, 0⟩ zeroPool
          []).trace).pool.RequiresRelocation = true ∧
      (MemoryPool.Relocate refusingDriver 99
        (MemoryPool.Initialize refusingDriver sampleContext ⟨65536, 1, 0⟩ zeroPool []).pool
        (MemoryPool.Initialize refusingDriver sampleContext ⟨65536, 1, 0⟩ zeroPool
          []).trace).trace
        = (MemoryPool.Initialize refusingDriver sampleContext ⟨65536, 1, 0⟩ zeroPool
            []).trace
          ++ (MemoryPool.Relocate.setupCalls refusingDriver
            (MemoryPool.Initialize refusingDriver sampleContext ⟨65536, 1, 0⟩ zeroPool
              []).pool
            (MemoryPool.Initialize refusingDriver sampleContext ⟨65536, 1, 0⟩ zeroPool
              []).trace).take 3) :=
  ⟨by decide, by decide,
    (MemoryPool.Relocate_setup_failure_keeps_flag refusingDriver 99
      (MemoryPool.Initialize refusingDriver sampleContext ⟨65536, 1, 0⟩ zeroPool []).pool
      (MemoryPool.Initialize refusingDriver sampleContext ⟨65536, 1, 0⟩ zeroPool []).trace
      (by decide)).2.2.1 (by decide) (by decide) (by decide)⟩

/-! ## Initialization: allocations and memory-type indices -/

/-- C15: an `Initialize` that returns normally adds to the trace, after the
host-pointer query, exactly one memory allocation (the import) under the direct
policy, and exactly two (the device allocation, then the import) under the staged
policy; under either policy it creates no buffer. -/
theorem MemoryPool.Initialize_allocation_count (drv : Driver) (context : Context)
    (pool_info : MemoryPoolInfo) (self : MemoryPool) (trace : List NativeCall)
    (hok : (MemoryPool.Initialize drv context pool_info self trace).status = Status.ok) :
    ((drv.vkGetMemoryHostPointerPropertiesEXT trace context.GetDevice 0
          pool_info.import_memory).2 &&& pool_info.memory_property_flags
            = pool_info.memory_property_flags →
        (MemoryPool.Initialize drv context pool_info self trace).trace
          = trace ++
            [MemoryPool.Initialize.queryCall context pool_info,
              NativeCall.vkAllocateMemory context.GetDevice
                (MemoryPool.Initialize.host_allocate_info pool_info
                  (context.FindMemoryHeapIndex pool_info.memory_property_flags))]) ∧
      ((drv.vkGetMemoryHostPointerPropertiesEXT trace context.GetDevice 0
          pool_info.import_memory).2 &&& pool_info.memory_property_flags
            ≠ pool_info.memory_property_flags →
        (MemoryPool.Initialize drv context pool_info self trace).trace
          = trace ++
            [MemoryPool.Initialize.queryCall context pool_info,
              NativeCall.vkAllocateMemory context.GetDevice
                (MemoryPool.Initialize.device_allocate_info context pool_info),
              NativeCall.vkAllocateMemory context.GetDevice
                (MemoryPool.Initialize.host_allocate_info pool_info
                  (context.FindMemoryHeapIndex
                    (VK_MEMORY_PROPERTY_HOST_VISIBLE_BIT |||
                      VK_MEMORY_PROPERTY_HOST_COHERENT_BIT)))]) ∧
      ((MemoryPool.Initialize drv context pool_info self trace).trace.drop
          trace.length).countP NativeCall.isAllocation
        = (if (drv.vkGetMemoryHostPointerPropertiesEXT trace context.GetDevice 0
              pool_info.import_memory).2 &&& pool_info.memory_property_flags
                = pool_info.memory_property_flags then 1 else 2) ∧
      ((MemoryPool.Initialize drv context pool_info self trace).trace.drop
          trace.length).countP NativeCall.isBufferCreation = 0 := by
  by_cases hbits : (drv.vkGetMemoryHostPointerPropertiesEXT trace context.GetDevice 0
      pool_info.import_memory).2 &&& pool_info.memory_property_flags
        = pool_info.memory_property_flags
  · obtain ⟨_, _, _, _, heq⟩ :=
      MemoryPool.Initialize_ok_direct drv context pool_info self trace hbits hok
    rw [heq]
    refine ⟨fun _ => by simp, fun hne => absurd hbits hne, ?_, ?_⟩
    · simp [hbits, MemoryPool.Initialize.queryCall, NativeCall.isAllocation]
    · simp [MemoryPool.Initialize.queryCall, NativeCall.isBufferCreation]
  · obtain ⟨_, _, _, _, _, _, heq⟩ :=
      MemoryPool.Initialize_ok_staged drv context pool_info self trace hbits hok
    rw [heq]
    refine ⟨fun heq2 => absurd heq2 hbits, fun _ => by simp, ?_, ?_⟩
    · simp [hbits, MemoryPool.Initialize.queryCall, NativeCall.isAllocation]
    · simp [MemoryPool.Initialize.queryCall, NativeCall.isBufferCreation]

/-- C15 witness: size 65536, desired flags host-visible and host-coherent, importable
as exactly that set: one allocation, which is the import (no allocation without
an import structure chained), and no buffer. -/
theorem MemoryPool.Initialize_allocation_count_witness :
    (MemoryPool.Initialize (sampleDriver VK_ERROR_INVALID_EXTERNAL_HANDLE 6) sampleContext
        ⟨65536, 6, 0⟩ zeroPool []).status = Status.ok ∧
      (MemoryPool.Initialize (sampleDriver VK_ERROR_INVALID_EXTERNAL_HANDLE 6) sampleContext
        ⟨65536, 6, 0⟩ zeroPool []).trace
        = [NativeCall.vkGetMemoryHostPointerPropertiesEXT 7 0 0,
            NativeCall.vkAllocateMemory 7
              { pNext := some { handleType := 128, pHostPointer := 0 }
                allocationSize := 65536, memoryTypeIndex := 0 }] ∧
      ((MemoryPool.Initialize (sampleDriver VK_ERROR_INVALID_EXTERNAL_HANDLE 6) sampleContext
        ⟨65536, 6, 0⟩ zeroPool []).trace.drop
          ([] : List NativeCall).length).countP NativeCall.isBufferCreation = 0 :=
  have h := MemoryPool.Initialize_allocation_count
    (sampleDriver VK_ERROR_INVALID_EXTERNAL_HANDLE 6) sampleContext ⟨65536, 6, 0⟩ zeroPool []
    (by decide)
  ⟨by decide, (h.1 (by decide)).trans (by decide), h.2.2.2⟩

/-- The `u32` field `memoryTypeIndex` holds the `s32` index unchanged when the index
is not negative. -/
theorem s32ToU32_of_nonneg (value : Int) (hlow : 0 ≤ value) (hhigh : value < 2147483648) :
    (s32ToU32 value : Int) = value := by
  unfold s32ToU32
  rw [Int.toNat_of_nonneg (Int.emod_nonneg _ (by norm_num))]
  exact Int.emod_eq_of_lt hlow (by omega)

/-- Under the staged policy, whether it returns or stops at an assertion, the calls
`Initialize` adds to the trace are the first few of: the host-pointer query, the
device allocation, the import allocation. -/
theorem MemoryPool.Initialize_staged_trace (drv : Driver) (context : Context)
    (pool_info : MemoryPoolInfo) (self : MemoryPool) (trace : List NativeCall)
    (hbits : (drv.vkGetMemoryHostPointerPropertiesEXT trace context.GetDevice 0
        pool_info.import_memory).2 &&& pool_info.memory_property_flags
          ≠ pool_info.memory_property_flags) :
    ∃ count, (MemoryPool.Initialize drv context pool_info self trace).trace
      = trace ++
        ([MemoryPool.Initialize.queryCall context pool_info,
          NativeCall.vkAllocateMemory context.GetDevice
            (MemoryPool.Initialize.device_allocate_info context pool_info),
          NativeCall.vkAllocateMemory context.GetDevice
            (MemoryPool.Initialize.host_allocate_info pool_info
              (context.FindMemoryHeapIndex
                (VK_MEMORY_PROPERTY_HOST_VISIBLE_BIT |||
                  VK_MEMORY_PROPERTY_HOST_COHERENT_BIT)))].take count) := by
  unfold MemoryPool.Initialize DD_ASSERT MemoryPool.Initialize.queryCall
    MemoryPool.Initialize.device_allocate_info MemoryPool.Initialize.host_allocate_info
  dsimp only
  simp only [hbits, if_false, bne_iff_ne, beq_iff_eq, ne_eq]
  split_ifs <;>
    first
    | (refine ⟨0, ?_⟩; simp; done)
    | (refine ⟨1, ?_⟩; simp; done)
    | (refine ⟨2, ?_⟩; simp; done)
    | (refine ⟨3, ?_⟩; simp)

/-- C16: under the staged policy, every allocation without a chained import
structure that `Initialize` issues (the device allocation) is for the context's
device, requests the configured size and carries the memory-type index that
`FindMemoryHeapIndex` returns for the desired flags; an `Initialize` that returns
normally has issued it; and `Initialize` does not return normally if that index is
-1 (it stops at line 52 once the checks at lines 26 and 36 have passed, before any
allocation) or if the driver does not answer that allocation with `VK_SUCCESS` (it
then stops at line 60). -/
theorem MemoryPool.Initialize_device_allocation (drv : Driver) (context : Context)
    (pool_info : MemoryPoolInfo) (self : MemoryPool) (trace : List NativeCall)
    (hbits : (drv.vkGetMemoryHostPointerPropertiesEXT trace context.GetDevice 0
        pool_info.import_memory).2 &&& pool_info.memory_property_flags
          ≠ pool_info.memory_property_flags) :
    (∀ device info,
        NativeCall.vkAllocateMemory device info
            ∈ (MemoryPool.Initialize drv context pool_info self trace).trace.drop
              trace.length →
          info.pNext = none →
            device = context.GetDevice ∧ info.allocationSize = pool_info.size ∧
              info.memoryTypeIndex
                = s32ToU32 (context.FindMemoryHeapIndex pool_info.memory_property_flags)) ∧
      ((MemoryPool.Initialize drv context pool_info self trace).status = Status.ok →
        NativeCall.vkAllocateMemory context.GetDevice
            (MemoryPool.Initialize.device_allocate_info context pool_info)
          ∈ (MemoryPool.Initialize drv context pool_info self trace).trace.drop
            trace.length) ∧
      (context.FindMemoryHeapIndex pool_info.memory_property_flags = -1 →
        (MemoryPool.Initialize drv context pool_info self trace).status ≠ Status.ok ∧
          (pool_info.import_memory = 0 →
            (drv.vkGetMemoryHostPointerPropertiesEXT trace context.GetDevice 0
              pool_info.import_memory).1 ≠ 0 →
              (MemoryPool.Initialize drv context pool_info self trace).status
                  = Status.assertFailed 52 ∧
                (MemoryPool.Initialize drv context pool_info self trace).trace
                  = trace ++ [MemoryPool.Initialize.queryCall context pool_info])) ∧
      ((drv.vkAllocateMemory (trace ++ [MemoryPool.Initialize.queryCall context pool_info])
          context.GetDevice
          (MemoryPool.Initialize.device_allocate_info context pool_info)).1 ≠ VK_SUCCESS →
        (MemoryPool.Initialize drv context pool_info self trace).status ≠ Status.ok ∧
          (pool_info.import_memory = 0 →
            (drv.vkGetMemoryHostPointerPropertiesEXT trace context.GetDevice 0
              pool_info.import_memory).1 ≠ 0 →
            context.FindMemoryHeapIndex pool_info.memory_property_flags ≠ -1 →
              (MemoryPool.Initialize drv context pool_info self trace).status
                = Status.assertFailed 60)) := by
  refine ⟨?_, ?_, ?_, ?_⟩
  · intro device info hmem hnext
    obtain ⟨count, hcount⟩ :=
      MemoryPool.Initialize_staged_trace drv context pool_info self trace hbits
    rw [hcount, List.drop_left] at hmem
    have hfull := List.mem_of_mem_take hmem
    simp only [MemoryPool.Initialize.queryCall, List.mem_cons, reduceCtorEq, false_or,
      NativeCall.vkAllocateMemory.injEq, List.mem_singleton, List.not_mem_nil, or_false]
      at hfull
    rcases hfull with ⟨hd, hi⟩ | ⟨hd, hi⟩
    · subst hd hi
      exact ⟨rfl, rfl, rfl⟩
    · subst hi
      cases hnext
  · intro hok
    obtain ⟨_, _, _, _, _, _, heq⟩ :=
      MemoryPool.Initialize_ok_staged drv context pool_info self trace hbits hok
    rw [heq]
    simp
  · intro hidx
    refine ⟨fun hok => ?_, fun hptr hquery => ?_⟩
    · exact (MemoryPool.Initialize_ok_staged drv context pool_info self trace hbits hok).2.2.1
        hidx
    · obtain ⟨size, flags, pointer⟩ := pool_info
      dsimp only at hptr hbits hquery hidx ⊢
      subst hptr
      unfold MemoryPool.Initialize DD_ASSERT MemoryPool.Initialize.queryCall
      dsimp only
      simp only [hbits, hquery, hidx, if_false, if_true, bne_iff_ne, beq_iff_eq, ne_eq,
        not_false_eq_true, not_true_eq_false]
      split_ifs <;>
        first | exact ⟨rfl, rfl⟩ | (rename_i hcond; exact absurd hcond (by decide))
  · intro hreply
    refine ⟨fun hok => ?_, fun hptr hquery hidx => ?_⟩
    · exact hreply
        (MemoryPool.Initialize_ok_staged drv context pool_info self trace hbits hok).2.2.2.1
    · unfold MemoryPool.Initialize.queryCall MemoryPool.Initialize.device_allocate_info
        at hreply
      obtain ⟨size, flags, pointer⟩ := pool_info
      dsimp only at hptr hbits hquery hidx hreply ⊢
      subst hptr
      unfold MemoryPool.Initialize DD_ASSERT
      dsimp only
      simp only [hbits, hquery, hidx, hreply, if_false, if_true, bne_iff_ne, beq_iff_eq,
        ne_eq, not_false_eq_true, not_true_eq_false]
      split_ifs <;> first | rfl | (rename_i hcond; exact absurd hcond (by decide))

/-- C16 witness: size 65536, desired flags device-local (memory type 1 in the sample
context), memory-type bits 6 reported for the host pointer. -/
theorem MemoryPool.Initialize_device_allocation_witness :
    ((sampleDriver VK_ERROR_INVALID_EXTERNAL_HANDLE 6).vkGetMemoryHostPointerPropertiesEXT []
        sampleContext.GetDevice 0 0).2 &&& 1 ≠ 1 ∧
      (MemoryPool.Initialize (sampleDriver VK_ERROR_INVALID_EXTERNAL_HANDLE 6) sampleContext
        ⟨65536, 1, 0⟩ zeroPool []).status = Status.ok ∧
      NativeCall.vkAllocateMemory 7
          { pNext := none, allocationSize := 65536, memoryTypeIndex := 1 }
        ∈ (MemoryPool.Initialize (sampleDriver VK_ERROR_INVALID_EXTERNAL_HANDLE 6)
          sampleContext ⟨65536, 1, 0⟩ zeroPool []).trace.drop ([] : List NativeCall).length :=
  have h := MemoryPool.Initialize_device_allocation
    (sampleDriver VK_ERROR_INVALID_EXTERNAL_HANDLE 6) sampleContext ⟨65536, 1, 0⟩ zeroPool []
    (by decide)
  ⟨by decide, by decide, h.2.1 (by decide)⟩

/-- C17 (counterexample): the query reports memory-type bits 6 (types 1 and 2) for the
host pointer, and the context finds memory type 0 for host-visible and
host-coherent memory.  `Initialize` returns normally and its last call is the import
allocation with memory-type index 0, whose bit is not set in the reported bits. -/
theorem MemoryPool.Initialize_imports_with_unreported_index :
    (MemoryPool.Initialize (sampleDriver VK_ERROR_INVALID_EXTERNAL_HANDLE 6) sampleContext
        ⟨65536, 6, 0⟩ zeroPool []).status = Status.ok ∧
      (MemoryPool.Initialize (sampleDriver VK_ERROR_INVALID_EXTERNAL_HANDLE 6) sampleContext
        ⟨65536, 6, 0⟩ zeroPool []).trace.getLast?
        = some (NativeCall.vkAllocateMemory 7
            { pNext := some { handleType := 128, pHostPointer := 0 }
              allocationSize := 65536, memoryTypeIndex := 0 }) ∧
      ((sampleDriver VK_ERROR_INVALID_EXTERNAL_HANDLE 6).vkGetMemoryHostPointerPropertiesEXT []
        sampleContext.GetDevice 0 0).2.testBit 0 = false := by
  decide

/-- C17 (amended): for every `Initialize` that returns normally, the last call issued
is the host-pointer import allocation, and the memory-type index it carries is the
one `FindMemoryHeapIndex` returns for the desired flags under the direct policy, and
for host-visible and host-coherent under the staged policy; that index is not -1. -/
theorem MemoryPool.Initialize_import_index (drv : Driver) (context : Context)
    (pool_info : MemoryPoolInfo) (self : MemoryPool) (trace : List NativeCall)
    (hok : (MemoryPool.Initialize drv context pool_info self trace).status = Status.ok) :
    ((drv.vkGetMemoryHostPointerPropertiesEXT trace context.GetDevice 0
          pool_info.import_memory).2 &&& pool_info.memory_property_flags
            = pool_info.memory_property_flags →
        context.FindMemoryHeapIndex pool_info.memory_property_flags ≠ -1 ∧
          (MemoryPool.Initialize drv context pool_info self trace).trace.getLast?
            = some (NativeCall.vkAllocateMemory context.GetDevice
                (MemoryPool.Initialize.host_allocate_info pool_info
                  (context.FindMemoryHeapIndex pool_info.memory_property_flags)))) ∧
      ((drv.vkGetMemoryHostPointerPropertiesEXT trace context.GetDevice 0
          pool_info.import_memory).2 &&& pool_info.memory_property_flags
            ≠ pool_info.memory_property_flags →
        context.FindMemoryHeapIndex
            (VK_MEMORY_PROPERTY_HOST_VISIBLE_BIT ||| VK_MEMORY_PROPERTY_HOST_COHERENT_BIT)
          ≠ -1 ∧
          (MemoryPool.Initialize drv context pool_info self trace).trace.getLast?
            = some (NativeCall.vkAllocateMemory context.GetDevice
                (MemoryPool.Initialize.host_allocate_info pool_info
                  (context.FindMemoryHeapIndex
                    (VK_MEMORY_PROPERTY_HOST_VISIBLE_BIT |||
                      VK_MEMORY_PROPERTY_HOST_COHERENT_BIT))))) := by
  constructor
  · intro hbits
    obtain ⟨_, _, hidx, _, heq⟩ :=
      MemoryPool.Initialize_ok_direct drv context pool_info self trace hbits hok
    rw [heq]
    exact ⟨hidx, by simp⟩
  · intro hbits
    obtain ⟨_, _, _, _, hidx, _, heq⟩ :=
      MemoryPool.Initialize_ok_staged drv context pool_info self trace hbits hok
    rw [heq]
    exact ⟨hidx, by simp⟩

/-- C17 witness: under the staged policy the import allocation carries the index found
for host-visible and host-coherent memory (0 in the sample context). -/
theorem MemoryPool.Initialize_import_index_witness :
    (MemoryPool.Initialize (sampleDriver VK_ERROR_INVALID_EXTERNAL_HANDLE 6) sampleContext
        ⟨65536, 1, 0⟩ zeroPool []).status = Status.ok ∧
      (MemoryPool.Initialize (sampleDriver VK_ERROR_INVALID_EXTERNAL_HANDLE 6) sampleContext
        ⟨65536, 1, 0⟩ zeroPool []).trace.getLast?
        = some (NativeCall.vkAllocateMemory 7
            { pNext := some { handleType := 128, pHostPointer := 0 }
              allocationSize := 65536, memoryTypeIndex := 0 }) :=
  have h := MemoryPool.Initialize_import_index
    (sampleDriver VK_ERROR_INVALID_EXTERNAL_HANDLE 6) sampleContext ⟨65536, 1, 0⟩ zeroPool []
    (by decide)
  ⟨by decide, ((h.2 (by decide)).2).trans (by decide)⟩

/-- C18 (counterexample): a configuration of size zero (null host pointer, desired
flags host-visible and host-coherent) on which `Initialize` returns normally, having
requested an import allocation of 0 bytes. -/
theorem MemoryPool.Initialize_accepts_zero_size :
    (MemoryPool.Initialize (sampleDriver VK_ERROR_INVALID_EXTERNAL_HANDLE 6) sampleContext
        ⟨0, 6, 0⟩ zeroPool []).status = Status.ok ∧
      (MemoryPool.Initialize (sampleDriver VK_ERROR_INVALID_EXTERNAL_HANDLE 6) sampleContext
        ⟨0, 6, 0⟩ zeroPool []).trace
        = [NativeCall.vkGetMemoryHostPointerPropertiesEXT 7 0 0,
            NativeCall.vkAllocateMemory 7
              { pNext := some { handleType := 128, pHostPointer := 0 }
                allocationSize := 0, memoryTypeIndex := 0 }] := by
  decide

/-- C18 (amended): `Initialize` has no check of the configured size.  For a
configuration of size zero whose host pointer passes the argument check of line 26,
when the query result passes line 36, the context finds every memory-type index and
the driver answers every allocation with `VK_SUCCESS`, `Initialize` returns
normally, and every allocation it has issued requests 0 bytes. -/
theorem MemoryPool.Initialize_zero_size_not_checked (drv : Driver) (context : Context)
    (flags : Nat) (self : MemoryPool) (trace : List NativeCall)
    (hquery : (drv.vkGetMemoryHostPointerPropertiesEXT trace context.GetDevice 0 0).1 ≠ 0)
    (hidx : ∀ requested, context.FindMemoryHeapIndex requested ≠ -1)
    (halloc : ∀ (history : List NativeCall) (device : Nat) (info : VkMemoryAllocateInfo),
      (drv.vkAllocateMemory history device info).1 = VK_SUCCESS) :
    (MemoryPool.Initialize drv context ⟨0, flags, 0⟩ self trace).status = Status.ok ∧
      ∀ device info,
        NativeCall.vkAllocateMemory device info
            ∈ (MemoryPool.Initialize drv context ⟨0, flags, 0⟩ self trace).trace.drop
              trace.length →
          info.allocationSize = 0 := by
  unfold MemoryPool.Initialize DD_ASSERT
  dsimp only
  simp only [hquery, hidx, halloc, if_false, if_true, bne_iff_ne, beq_iff_eq, ne_eq,
    not_false_eq_true, not_true_eq_false, beq_self_eq_true]
  split_ifs <;>
    first
    | (rename_i hcond; exact absurd hcond (by decide))
    | (refine ⟨rfl, ?_⟩
       intro device info hmem
       simp at hmem
       rcases hmem with ⟨-, rfl⟩ | ⟨-, rfl⟩ <;> rfl)
    | (refine ⟨rfl, ?_⟩
       intro device info hmem
       simp at hmem
       rcases hmem with ⟨-, rfl⟩
       rfl)

/-- C18 witness: the sample driver and context at size zero under the staged
policy. -/
theorem MemoryPool.Initialize_zero_size_not_checked_witness :
    (MemoryPool.Initialize (sampleDriver VK_ERROR_INVALID_EXTERNAL_HANDLE 6) sampleContext
        ⟨0, 1, 0⟩ zeroPool []).status = Status.ok :=
  (MemoryPool.Initialize_zero_size_not_checked
    (sampleDriver VK_ERROR_INVALID_EXTERNAL_HANDLE 6) sampleContext 1 zeroPool []
    (by decide)
    (fun requested => by unfold sampleContext; dsimp only; split_ifs <;> decide)
    (fun _ _ _ => rfl)).1

end dd.vk

namespace dd.util.math

/-! ## Vector helpers -/

/-- What `Dot` computes: the sum of the three component products (lane 3 is not
added). -/
theorem Vector3Type.Dot_eq {T : Type} [Zero T] [Add T] [Mul T] (self rhs : Vector3Type T) :
    self.Dot rhs = self.x * rhs.x + self.y * rhs.y + self.z * rhs.z := rfl

/-- What `Parallelize` writes: `to_parallelize` scaled by its dot product with `base`. -/
theorem Parallelize_eq {T : Type} [Zero T] [Add T] [Mul T]
    (out_vector base to_parallelize : Vector3Type T) :
    Parallelize out_vector base to_parallelize
      = ⟨to_parallelize.x * base.Dot to_parallelize,
          to_parallelize.y * base.Dot to_parallelize,
          to_parallelize.z * base.Dot to_parallelize⟩ := rfl

/-- What `RotateVectorAxisZ` leaves in the output object when it is not the input
object, with `sin` and `cos` the sampled values and (x, y, z) the input:
`(z*sin + cos*x, y, z*cos - sin*x)`. -/
theorem RotateVectorAxisZ_eq {T : Type} [Add T] [Sub T] [Mul T] (FloatSample : T)
    (SampleSin SampleCos : T → T) (memory : Nat → Vector3Type T)
    (out_vector rot_vector : Nat) (angle : T) (hne : out_vector ≠ rot_vector) :
    RotateVectorAxisZ FloatSample SampleSin SampleCos memory out_vector rot_vector angle
        out_vector
      = ⟨((memory rot_vector).z * SampleSin (angle * FloatSample))
            + (SampleCos (angle * FloatSample) * (memory rot_vector).x),
          (memory rot_vector).y,
          ((memory rot_vector).z * SampleCos (angle * FloatSample))
            - (SampleSin (angle * FloatSample) * (memory rot_vector).x)⟩ := by
  simp [RotateVectorAxisZ, Function.update, hne.symm]

/-- What `RotateVectorAxisZ` leaves in the object when the output object is the input
object: the x component is computed from the z component already rewritten. -/
theorem RotateVectorAxisZ_in_place {T : Type} [Add T] [Sub T] [Mul T] (FloatSample : T)
    (SampleSin SampleCos : T → T) (memory : Nat → Vector3Type T)
    (vector : Nat) (angle : T) :
    RotateVectorAxisZ FloatSample SampleSin SampleCos memory vector vector angle vector
      = ⟨((((memory vector).z * SampleCos (angle * FloatSample))
              - (SampleSin (angle * FloatSample) * (memory vector).x))
            * SampleSin (angle * FloatSample))
            + (SampleCos (angle * FloatSample) * (memory vector).x),
          (memory vector).y,
          ((memory vector).z * SampleCos (angle * FloatSample))
            - (SampleSin (angle * FloatSample) * (memory vector).x)⟩ := by
  simp [RotateVectorAxisZ, Function.update]

/-- C19: evaluation at the failing input, over the rationals.  For base = (1,0,0) and
to_parallelize = (1,1,0) `Parallelize` writes (1,1,0): this is not a scalar multiple
of base, and the third component of its cross product with base,
`out.x * base.y - out.y * base.x`, is -1 and not 0. -/
theorem Parallelize_not_parallel_to_base :
    Parallelize (⟨0, 0, 0⟩ : Vector3Type ℚ) ⟨1, 0, 0⟩ ⟨1, 1, 0⟩ = ⟨1, 1, 0⟩ ∧
      (¬ ∃ scale : ℚ, Parallelize (⟨0, 0, 0⟩ : Vector3Type ℚ) ⟨1, 0, 0⟩ ⟨1, 1, 0⟩
        = ⟨scale * 1, scale * 0, scale * 0⟩) ∧
      (Parallelize (⟨0, 0, 0⟩ : Vector3Type ℚ) ⟨1, 0, 0⟩ ⟨1, 1, 0⟩).x * 0
        - (Parallelize (⟨0, 0, 0⟩ : Vector3Type ℚ) ⟨1, 0, 0⟩ ⟨1, 1, 0⟩).y * 1 = -1 := by
  have hvalue : Parallelize (⟨0, 0, 0⟩ : Vector3Type ℚ) ⟨1, 0, 0⟩ ⟨1, 1, 0⟩ = ⟨1, 1, 0⟩ := by
    rw [Parallelize_eq, Vector3Type.Dot_eq]
    norm_num
  refine ⟨hvalue, ?_, ?_⟩
  · rintro ⟨scale, hscale⟩
    rw [hvalue] at hscale
    have hy := congrArg Vector3Type.y hscale
    norm_num at hy
  · rw [hvalue]
    norm_num

/-- C20: evaluation at the failing input, over the rationals, with the output object
at address 16 and the input object at address 32.  For the input (0,0,1) and sampled
values sin = 1, cos = 0, `RotateVectorAxisZ` writes (1,0,0), while the matrix of its
comment, `(x*sin - y*cos, x*cos + y*sin, z)`, gives (0,0,1); the z component 1 is
not passed through.  For the sampled values sin = 0, cos = 1 and the input (1,2,3)
it writes (1,2,3), while the matrix of the comment gives (-2,1,3).  Called in place
on (0,0,1) with sin = 1, cos = 0 it leaves (0,0,0), again not (0,0,1). -/
theorem RotateVectorAxisZ_differs_from_comment :
    RotateVectorAxisZ (1 : ℚ) (fun _ => 1) (fun _ => 0)
        (twoVectors ⟨0, 0, 0⟩ ⟨0, 0, 1⟩) 16 32 0 16 = ⟨1, 0, 0⟩ ∧
      RotateVectorAxisZ (1 : ℚ) (fun _ => 1) (fun _ => 0)
        (twoVectors ⟨0, 0, 0⟩ ⟨0, 0, 1⟩) 16 32 0 16
        ≠ ⟨0 * 1 - 0 * 0, 0 * 0 + 0 * 1, 1⟩ ∧
      (RotateVectorAxisZ (1 : ℚ) (fun _ => 1) (fun _ => 0)
        (twoVectors ⟨0, 0, 0⟩ ⟨0, 0, 1⟩) 16 32 0 16).z ≠ 1 ∧
      RotateVectorAxisZ (1 : ℚ) (fun _ => 0) (fun _ => 1)
        (twoVectors ⟨0, 0, 0⟩ ⟨1, 2, 3⟩) 16 32 0 16 = ⟨1, 2, 3⟩ ∧
      RotateVectorAxisZ (1 : ℚ) (fun _ => 0) (fun _ => 1)
        (twoVectors ⟨0, 0, 0⟩ ⟨1, 2, 3⟩) 16 32 0 16
        ≠ ⟨1 * 0 - 2 * 1, 1 * 1 + 2 * 0, 3⟩ ∧
      RotateVectorAxisZ (1 : ℚ) (fun _ => 1) (fun _ => 0)
        (twoVectors ⟨0, 0, 0⟩ ⟨0, 0, 1⟩) 32 32 0 32 = ⟨0, 0, 0⟩ := by
  have hfirst : RotateVectorAxisZ (1 : ℚ) (fun _ => 1) (fun _ => 0)
      (twoVectors ⟨0, 0, 0⟩ ⟨0, 0, 1⟩) 16 32 0 16 = ⟨1, 0, 0⟩ := by
    rw [RotateVectorAxisZ_eq _ _ _ _ _ _ _ (by decide)]
    norm_num [twoVectors]
  have hsecond : RotateVectorAxisZ (1 : ℚ) (fun _ => 0) (fun _ => 1)
      (twoVectors ⟨0, 0, 0⟩ ⟨1, 2, 3⟩) 16 32 0 16 = ⟨1, 2, 3⟩ := by
    rw [RotateVectorAxisZ_eq _ _ _ _ _ _ _ (by decide)]
    norm_num [twoVectors]
  refine ⟨hfirst, ?_, ?_, hsecond, ?_, ?_⟩
  · rw [hfirst]
    intro heq
    have hx := congrArg Vector3Type.x heq
    norm_num at hx
  · rw [hfirst]
    norm_num
  · rw [hsecond]
    intro heq
    have hx := congrArg Vector3Type.x heq
    norm_num at hx
  · rw [RotateVectorAxisZ_in_place]
    norm_num [twoVectors]

/-! ## Rotations about the x-axis and the y-axis -/

/-- What `RotateVectorAxisX` leaves in the output object when it is not the input
object, with `sin` and `cos` the sampled values and (x, y, z) the input:
`(x, y*sin - cos*z, y*cos + sin*z)`. -/
theorem RotateVectorAxisX_eq {T : Type} [Add T] [Sub T] [Mul T] (FloatSample : T)
    (SampleSin SampleCos : T → T) (memory : Nat → Vector3Type T)
    (out_vector rot_vector : Nat) (angle : T) (hne : out_vector ≠ rot_vector) :
    RotateVectorAxisX FloatSample SampleSin SampleCos memory out_vector rot_vector angle
        out_vector
      = ⟨(memory rot_vector).x,
          ((memory rot_vector).y * SampleSin (angle * FloatSample))
            - (SampleCos (angle * FloatSample) * (memory rot_vector).z),
          ((memory rot_vector).y * SampleCos (angle * FloatSample))
            + (SampleSin (angle * FloatSample) * (memory rot_vector).z)⟩ := by
  simp [RotateVectorAxisX, Function.update, hne.symm]

/-- What `RotateVectorAxisX` leaves in the object when the output object is the input
object: the z component is computed from the y component already rewritten. -/
theorem RotateVectorAxisX_in_place {T : Type} [Add T] [Sub T] [Mul T] (FloatSample : T)
    (SampleSin SampleCos : T → T) (memory : Nat → Vector3Type T)
    (vector : Nat) (angle : T) :
    RotateVectorAxisX FloatSample SampleSin SampleCos memory vector vector angle vector
      = ⟨(memory vector).x,
          ((memory vector).y * SampleSin (angle * FloatSample))
            - (SampleCos (angle * FloatSample) * (memory vector).z),
          ((((memory vector).y * SampleSin (angle * FloatSample))
              - (SampleCos (angle * FloatSample) * (memory vector).z))
            * SampleCos (angle * FloatSample))
            + (SampleSin (angle * FloatSample) * (memory vector).z)⟩ := by
  simp [RotateVectorAxisX, Function.update]

/-- What `RotateVectorAxisY` leaves in the output object when it is not the input
object, with `sin` and `cos` the sampled values and (x, y, z) the input:
`(z*cos + sin*x, y, z*sin - cos*x)`. -/
theorem RotateVectorAxisY_eq {T : Type} [Add T] [Sub T] [Mul T] (FloatSample : T)
    (SampleSin SampleCos : T → T) (memory : Nat → Vector3Type T)
    (out_vector rot_vector : Nat) (angle : T) (hne : out_vector ≠ rot_vector) :
    RotateVectorAxisY FloatSample SampleSin SampleCos memory out_vector rot_vector angle
        out_vector
      = ⟨((memory rot_vector).z * SampleCos (angle * FloatSample))
            + (SampleSin (angle * FloatSample) * (memory rot_vector).x),
          (memory rot_vector).y,
          ((memory rot_vector).z * SampleSin (angle * FloatSample))
            - (SampleCos (angle * FloatSample) * (memory rot_vector).x)⟩ := by
  simp [RotateVectorAxisY, Function.update, hne.symm]

/-- What `RotateVectorAxisY` leaves in the object when the output object is the input
object: the z component is computed from the x component already rewritten. -/
theorem RotateVectorAxisY_in_place {T : Type} [Add T] [Sub T] [Mul T] (FloatSample : T)
    (SampleSin SampleCos : T → T) (memory : Nat → Vector3Type T)
    (vector : Nat) (angle : T) :
    RotateVectorAxisY FloatSample SampleSin SampleCos memory vector vector angle vector
      = ⟨((memory vector).z * SampleCos (angle * FloatSample))
            + (SampleSin (angle * FloatSample) * (memory vector).x),
          (memory vector).y,
          ((memory vector).z * SampleSin (angle * FloatSample))
            - (SampleCos (angle * FloatSample)
              * (((memory vector).z * SampleCos (angle * FloatSample))
                + (SampleSin (angle * FloatSample) * (memory vector).x)))⟩ := by
  simp [RotateVectorAxisY, Function.update]

/-- What `operator+` returns, for any scalar type: the component-wise sum. -/
theorem Vector3Type.operatorAdd_eq {T : Type} [Zero T] [Add T] (self rhs : Vector3Type T) :
    self.operatorAdd rhs = ⟨self.x + rhs.x, self.y + rhs.y, self.z + rhs.z⟩ := rfl

/-- When `operator==` returns true, for any scalar type. -/
theorem Vector3Type.operatorEq_iff {T : Type} [DecidableEq T] (self rhs : Vector3Type T) :
    self.operatorEq rhs = true ↔ self.x = rhs.x ∧ self.y = rhs.y ∧ self.z = rhs.z := by
  unfold Vector3Type.operatorEq
  simp [and_assoc]

/-- C22: on vectors of 32-bit unsigned integers, `operator+` is the component-wise sum
modulo 2^32; `a + b == c` is true exactly when the three component sums are the
components of `c`; and `operator!=` is the negation of `operator==`.  In particular
(2,2,2) + (2,4,2) != (2,2,2), (1,1,1) + (1,1,1) == (2,2,2) (also over exact
arithmetic, as in the second `static_assert`), and the sum wraps:
(4294967295,0,0) + (1,0,0) == (0,0,0). -/
theorem Vector3Type.operatorAdd_componentwise :
    (∀ a b c : Vector3Type u32,
        a.operatorAdd b = ⟨a.x + b.x, a.y + b.y, a.z + b.z⟩ ∧
          (a.operatorAdd b).x.val = (a.x.val + b.x.val) % 4294967296 ∧
          (a.operatorAdd b).y.val = (a.y.val + b.y.val) % 4294967296 ∧
          (a.operatorAdd b).z.val = (a.z.val + b.z.val) % 4294967296 ∧
          ((a.operatorAdd b).operatorEq c = true ↔
            ((a.x.val + b.x.val) % 4294967296 = c.x.val ∧
              (a.y.val + b.y.val) % 4294967296 = c.y.val ∧
              (a.z.val + b.z.val) % 4294967296 = c.z.val)) ∧
          (a.operatorAdd b).operatorNe c = !((a.operatorAdd b).operatorEq c)) ∧
      ((⟨2, 2, 2⟩ : Vector3Type u32).operatorAdd ⟨2, 4, 2⟩).operatorNe ⟨2, 2, 2⟩ = true ∧
      ((⟨1, 1, 1⟩ : Vector3Type u32).operatorAdd ⟨1, 1, 1⟩).operatorEq ⟨2, 2, 2⟩ = true ∧
      ((⟨1, 1, 1⟩ : Vector3Type ℚ).operatorAdd ⟨1, 1, 1⟩).operatorEq ⟨2, 2, 2⟩ = true ∧
      ((⟨4294967295, 0, 0⟩ : Vector3Type u32).operatorAdd ⟨1, 0, 0⟩).operatorEq ⟨0, 0, 0⟩
        = true := by
  refine ⟨?_, by decide, by decide, ?_, by decide⟩
  · intro a b c
    refine ⟨rfl, ZMod.val_add a.x b.x, ZMod.val_add a.y b.y, ZMod.val_add a.z b.z, ?_, rfl⟩
    rw [Vector3Type.operatorEq_iff, Vector3Type.operatorAdd_eq]
    simp only [← ZMod.val_add]
    constructor
    · rintro ⟨hx, hy, hz⟩
      exact ⟨congrArg ZMod.val hx, congrArg ZMod.val hy, congrArg ZMod.val hz⟩
    · rintro ⟨hx, hy, hz⟩
      exact ⟨ZMod.val_injective _ hx, ZMod.val_injective _ hy, ZMod.val_injective _ hz⟩
  · rw [Vector3Type.operatorEq_iff, Vector3Type.operatorAdd_eq]
    norm_num

/-- Over exact arithmetic (any commutative ring), `Dot` is the dot product: the sum of
the three component products, to which the fourth lane (zero in both operands, zero
in their lane-wise product) contributes nothing; it is symmetric; and
(1,0,1).Dot((1,1,0)) is 1. -/
theorem Vector3Type.Dot_exact_arithmetic {T : Type} [CommRing T] (a b : Vector3Type T) :
    a.Dot b = a.x * b.x + a.y * b.y + a.z * b.z ∧
      (Vector3Type.v3.mul a.GetVectorType b.GetVectorType).lane3 = 0 ∧
      a.Dot b
        = (Vector3Type.v3.mul a.GetVectorType b.GetVectorType).lane0
          + (Vector3Type.v3.mul a.GetVectorType b.GetVectorType).lane1
          + (Vector3Type.v3.mul a.GetVectorType b.GetVectorType).lane2
          + (Vector3Type.v3.mul a.GetVectorType b.GetVectorType).lane3 ∧
      a.Dot b = b.Dot a ∧
      (⟨1, 0, 1⟩ : Vector3Type ℚ).Dot ⟨1, 1, 0⟩ = 1 := by
  refine ⟨rfl, ?_, ?_, ?_, ?_⟩
  · simp [Vector3Type.v3.mul, Vector3Type.GetVectorType]
  · simp [Vector3Type.Dot, Vector3Type.v3.mul, Vector3Type.GetVectorType]
  · simp only [Vector3Type.Dot_eq]
    ring
  · rw [Vector3Type.Dot_eq]
    norm_num

/-- The product of `float` values is commutative. -/
theorem FloatValue.product_commutes (p q : FloatValue) : p * q = q * p := by
  show FloatValue.mul p q = FloatValue.mul q p
  cases p <;> cases q <;> simp [FloatValue.mul, mul_comm, Bool.xor_comm]

/-- C23 (counterexample): on `float` vectors, for a = (infinity, 0, 0) and b = (0, 0, 0)
the product of the first components is infinity times zero, so `a.Dot(b)` and
`b.Dot(a)` are NaN, and both comparisons of the claim, `a.Dot(b) == b.Dot(a)` and
`a.Dot(b) == a.x*b.x + a.y*b.y + a.z*b.z`, are false. -/
theorem Vector3Type.Dot_nan_fails_comparison :
    (⟨FloatValue.infinity false, FloatValue.finite 0, FloatValue.finite 0⟩ :
        Vector3Type FloatValue).Dot ⟨FloatValue.finite 0, FloatValue.finite 0,
          FloatValue.finite 0⟩ = FloatValue.nan ∧
      FloatValue.operatorEq
        ((⟨FloatValue.infinity false, FloatValue.finite 0, FloatValue.finite 0⟩ :
          Vector3Type FloatValue).Dot ⟨FloatValue.finite 0, FloatValue.finite 0,
            FloatValue.finite 0⟩)
        ((⟨FloatValue.finite 0, FloatValue.finite 0, FloatValue.finite 0⟩ :
          Vector3Type FloatValue).Dot ⟨FloatValue.infinity false, FloatValue.finite 0,
            FloatValue.finite 0⟩) = false ∧
      FloatValue.operatorEq
        ((⟨FloatValue.infinity false, FloatValue.finite 0, FloatValue.finite 0⟩ :
          Vector3Type FloatValue).Dot ⟨FloatValue.finite 0, FloatValue.finite 0,
            FloatValue.finite 0⟩)
        (FloatValue.infinity false * FloatValue.finite 0
          + FloatValue.finite 0 * FloatValue.finite 0
          + FloatValue.finite 0 * FloatValue.finite 0) = false := by
  have hdot : (⟨FloatValue.infinity false, FloatValue.finite 0, FloatValue.finite 0⟩ :
      Vector3Type FloatValue).Dot ⟨FloatValue.finite 0, FloatValue.finite 0,
        FloatValue.finite 0⟩ = FloatValue.nan := by
    rw [Vector3Type.Dot_eq]
    show FloatValue.add (FloatValue.add
      (FloatValue.mul (FloatValue.infinity false) (FloatValue.finite 0))
      (FloatValue.mul (FloatValue.finite 0) (FloatValue.finite 0)))
      (FloatValue.mul (FloatValue.finite 0) (FloatValue.finite 0)) = FloatValue.nan
    simp [FloatValue.mul, FloatValue.add]
  refine ⟨hdot, ?_, ?_⟩
  · rw [hdot]
    rfl
  · rw [hdot]
    rfl

/-- C23 (amended): for all vectors a and b over a scalar type whose product is
commutative (the integers modulo 2^32, exact arithmetic, `float`), `a.Dot(b)` is the
value of `a.x*b.x + a.y*b.y + a.z*b.z`, the sum of lanes 0 to 2 of the lane-wise
product (the fourth lane is not added), and it is the same value as `b.Dot(a)`;
whenever that value compares equal to itself under the scalar `==` (it is not a
NaN), `a.Dot(b) == a.x*b.x + a.y*b.y + a.z*b.z` and `a.Dot(b) == b.Dot(a)` are
true. -/
theorem Vector3Type.Dot_is_dot_product {T : Type} [Zero T] [Add T] [Mul T]
    (scalarEq : T → T → Bool) (a b : Vector3Type T)
    (hcomm : ∀ p q : T, p * q = q * p)
    (hself : scalarEq (a.Dot b) (a.Dot b) = true) :
    a.Dot b = a.x * b.x + a.y * b.y + a.z * b.z ∧
      a.Dot b
        = (Vector3Type.v3.mul a.GetVectorType b.GetVectorType).lane0
          + (Vector3Type.v3.mul a.GetVectorType b.GetVectorType).lane1
          + (Vector3Type.v3.mul a.GetVectorType b.GetVectorType).lane2 ∧
      a.Dot b = b.Dot a ∧
      scalarEq (a.Dot b) (a.x * b.x + a.y * b.y + a.z * b.z) = true ∧
      scalarEq (a.Dot b) (b.Dot a) = true := by
  have hsymm : a.Dot b = b.Dot a := by
    simp only [Vector3Type.Dot_eq]
    rw [hcomm a.x b.x, hcomm a.y b.y, hcomm a.z b.z]
  refine ⟨rfl, rfl, hsymm, hself, ?_⟩
  rw [← hsymm]
  exact hself

/-- C23 witness: the `static_assert` of line 295 on `float` vectors,
(1,0,1).Dot((1,1,0)) == 1. -/
theorem Vector3Type.Dot_is_dot_product_witness :
    FloatValue.operatorEq
        ((⟨FloatValue.finite 1, FloatValue.finite 0, FloatValue.finite 1⟩ :
          Vector3Type FloatValue).Dot ⟨FloatValue.finite 1, FloatValue.finite 1,
            FloatValue.finite 0⟩)
        ((⟨FloatValue.finite 1, FloatValue.finite 0, FloatValue.finite 1⟩ :
          Vector3Type FloatValue).Dot ⟨FloatValue.finite 1, FloatValue.finite 1,
            FloatValue.finite 0⟩) = true ∧
      (⟨FloatValue.finite 1, FloatValue.finite 0, FloatValue.finite 1⟩ :
        Vector3Type FloatValue).Dot ⟨FloatValue.finite 1, FloatValue.finite 1,
          FloatValue.finite 0⟩ = FloatValue.finite 1 ∧
      FloatValue.operatorEq
        ((⟨FloatValue.finite 1, FloatValue.finite 0, FloatValue.finite 1⟩ :
          Vector3Type FloatValue).Dot ⟨FloatValue.finite 1, FloatValue.finite 1,
            FloatValue.finite 0⟩)
        ((⟨FloatValue.finite 1, FloatValue.finite 1, FloatValue.finite 0⟩ :
          Vector3Type FloatValue).Dot ⟨FloatValue.finite 1, FloatValue.finite 0,
            FloatValue.finite 1⟩) = true :=
  have hdot : (⟨FloatValue.finite 1, FloatValue.finite 0, FloatValue.finite 1⟩ :
      Vector3Type FloatValue).Dot ⟨FloatValue.finite 1, FloatValue.finite 1,
        FloatValue.finite 0⟩ = FloatValue.finite 1 := by
    rw [Vector3Type.Dot_eq]
    show FloatValue.add (FloatValue.add
      (FloatValue.mul (FloatValue.finite 1) (FloatValue.finite 1))
      (FloatValue.mul (FloatValue.finite 0) (FloatValue.finite 1)))
      (FloatValue.mul (FloatValue.finite 1) (FloatValue.finite 0)) = FloatValue.finite 1
    simp [FloatValue.mul, FloatValue.add]
  have hself : FloatValue.operatorEq
      ((⟨FloatValue.finite 1, FloatValue.finite 0, FloatValue.finite 1⟩ :
        Vector3Type FloatValue).Dot ⟨FloatValue.finite 1, FloatValue.finite 1,
          FloatValue.finite 0⟩)
      ((⟨FloatValue.finite 1, FloatValue.finite 0, FloatValue.finite 1⟩ :
        Vector3Type FloatValue).Dot ⟨FloatValue.finite 1, FloatValue.finite 1,
          FloatValue.finite 0⟩) = true := by
    rw [hdot]
    simp [FloatValue.operatorEq]
  ⟨hself, hdot,
    (Vector3Type.Dot_is_dot_product FloatValue.operatorEq _ _ FloatValue.product_commutes hself).2.2.2.2⟩

/-- What both overloads of `Cross` return, for any scalar type. -/
theorem Vector3Type.Cross_eq {T : Type} [Zero T] [Sub T] [Mul T] (a b : Vector3Type T) :
    a.Cross b = ⟨a.y * b.z - a.z * b.y, a.z * b.x - a.x * b.z, a.x * b.y - a.y * b.x⟩ ∧
      a.Cross_floating_point b
        = ⟨a.y * b.z - a.z * b.y, a.z * b.x - a.x * b.z, a.x * b.y - a.y * b.x⟩ :=
  ⟨rfl, rfl⟩

/-- What `MakeVectorRotation` returns when `align` and `base` are the same unit vector
and `FloatUlp` is below 2: the flag is true, the first two rows are those of the
identity, and the third row starts with `sqrt(4)`, because its first entry is
computed as `(kcross.z * kcross2x) - (kcross.y - sqrt2dot)`. -/
theorem MakeVectorRotation_same_unit_vector (FloatUlp : ℚ) (sqrt : ℚ → ℚ)
    (out_rot_matrix : Matrix34RowMajorType ℚ) (v : Vector3Type ℚ)
    (hunit : v.Dot v = 1) (hulp : FloatUlp < 2) :
    MakeVectorRotation FloatUlp sqrt out_rot_matrix v v
      = (true, ⟨⟨1, 0, 0, 0⟩, ⟨0, 1, 0, 0⟩, ⟨sqrt 4, 0, 1, 0⟩⟩) := by
  have hcross : v.Cross_floating_point v = ⟨0, 0, 0⟩ := by
    rw [(Vector3Type.Cross_eq v v).2]
    congr 1 <;> ring
  have hdot : ¬ ((1 : ℚ) + 1 ≤ FloatUlp) := by
    rw [not_le]
    linarith
  unfold MakeVectorRotation
  simp only [hunit, hcross, hdot, if_false, Vector3Type.operatorMul]
  norm_num

/-- C25: evaluation at the failing input, over the rationals with an exact square
root of 4.  For v = (1,0,0), `MakeVectorRotation(out, v, v)` returns true and writes
the rows (1,0,0,0), (0,1,0,0), (2,0,1,0): the third row is not the row (0,0,1,0) of
the identity. -/
theorem MakeVectorRotation_same_vector_not_identity :
    MakeVectorRotation (1 / 8388608) sampleSqrt ZeroMatrix34 ⟨1, 0, 0⟩ ⟨1, 0, 0⟩
        = (true, ⟨⟨1, 0, 0, 0⟩, ⟨0, 1, 0, 0⟩, ⟨2, 0, 1, 0⟩⟩) ∧
      (MakeVectorRotation (1 / 8388608) sampleSqrt ZeroMatrix34 ⟨1, 0, 0⟩ ⟨1, 0, 0⟩).2
        ≠ IdentityMatrix34 ∧
      (MakeVectorRotation (1 / 8388608) sampleSqrt ZeroMatrix34 ⟨1, 0, 0⟩
        ⟨1, 0, 0⟩).2.m_row3.x = 2 := by
  have hvalue : MakeVectorRotation (1 / 8388608) sampleSqrt ZeroMatrix34 ⟨1, 0, 0⟩ ⟨1, 0, 0⟩
      = (true, ⟨⟨1, 0, 0, 0⟩, ⟨0, 1, 0, 0⟩, ⟨2, 0, 1, 0⟩⟩) := by
    rw [MakeVectorRotation_same_unit_vector (1 / 8388608) sampleSqrt ZeroMatrix34 ⟨1, 0, 0⟩
      (by rw [Vector3Type.Dot_eq]; norm_num) (by norm_num)]
    have hsqrt : sampleSqrt 4 = 2 := by
      unfold sampleSqrt
      norm_num
    rw [hsqrt]
  refine ⟨hvalue, ?_, ?_⟩
  · rw [hvalue]
    intro heq
    have hx := congrArg (fun m => m.m_row3.x) heq
    simp [IdentityMatrix34] at hx
  · rw [hvalue]

/-! ## Squared length under the three axis rotations -/

/-- C26 (counterexample): in-place calls on the vector (1,2,3), of squared length 14,
with sampled values of squared sum 1.  `RotateVectorAxisX` with sin = 0, cos = 1
leaves (1,-3,-3), of squared length 19; `RotateVectorAxisY` with sin = 0, cos = 1
leaves (3,2,-3), of squared length 22; `RotateVectorAxisZ` with sin = 1, cos = 0
leaves (-1,2,-1), of squared length 6. -/
theorem RotateVectorAxis_in_place_changes_squared_length :
    ((0 : ℚ) ^ 2 + (1 : ℚ) ^ 2 = 1) ∧
      RotateVectorAxisX (1 : ℚ) (fun _ => 0) (fun _ => 1)
        (twoVectors ⟨0, 0, 0⟩ ⟨1, 2, 3⟩) 32 32 0 32 = ⟨1, -3, -3⟩ ∧
      (RotateVectorAxisX (1 : ℚ) (fun _ => 0) (fun _ => 1)
          (twoVectors ⟨0, 0, 0⟩ ⟨1, 2, 3⟩) 32 32 0 32).x ^ 2
        + (RotateVectorAxisX (1 : ℚ) (fun _ => 0) (fun _ => 1)
          (twoVectors ⟨0, 0, 0⟩ ⟨1, 2, 3⟩) 32 32 0 32).y ^ 2
        + (RotateVectorAxisX (1 : ℚ) (fun _ => 0) (fun _ => 1)
          (twoVectors ⟨0, 0, 0⟩ ⟨1, 2, 3⟩) 32 32 0 32).z ^ 2
        ≠ (1 : ℚ) ^ 2 + 2 ^ 2 + 3 ^ 2 ∧
      RotateVectorAxisY (1 : ℚ) (fun _ => 0) (fun _ => 1)
        (twoVectors ⟨0, 0, 0⟩ ⟨1, 2, 3⟩) 32 32 0 32 = ⟨3, 2, -3⟩ ∧
      RotateVectorAxisZ (1 : ℚ) (fun _ => 1) (fun _ => 0)
        (twoVectors ⟨0, 0, 0⟩ ⟨1, 2, 3⟩) 32 32 0 32 = ⟨-1, 2, -1⟩ := by
  have hx : RotateVectorAxisX (1 : ℚ) (fun _ => 0) (fun _ => 1)
      (twoVectors ⟨0, 0, 0⟩ ⟨1, 2, 3⟩) 32 32 0 32 = ⟨1, -3, -3⟩ := by
    rw [RotateVectorAxisX_in_place]
    norm_num [twoVectors]
  refine ⟨by norm_num, hx, ?_, ?_, ?_⟩
  · rw [hx]
    norm_num
  · rw [RotateVectorAxisY_in_place]
    norm_num [twoVectors]
  · rw [RotateVectorAxisZ_in_place]
    norm_num [twoVectors]

/-- C26 (amended): over exact arithmetic, whenever the sampled values satisfy
sin^2 + cos^2 = 1 and the output object is not the input object, each of
`RotateVectorAxisX`, `RotateVectorAxisY` and `RotateVectorAxisZ` leaves in the
output object a vector with the squared length of its input. -/
theorem RotateVectorAxis_preserves_squared_length {T : Type} [CommRing T] (FloatSample : T)
    (SampleSin SampleCos : T → T) (memory : Nat → Vector3Type T)
    (out_vector rot_vector : Nat) (angle : T)
    (hne : out_vector ≠ rot_vector)
    (hunit : SampleSin (angle * FloatSample) ^ 2 + SampleCos (angle * FloatSample) ^ 2 = 1) :
    ((RotateVectorAxisX FloatSample SampleSin SampleCos memory out_vector rot_vector angle
          out_vector).x ^ 2
        + (RotateVectorAxisX FloatSample SampleSin SampleCos memory out_vector rot_vector
          angle out_vector).y ^ 2
        + (RotateVectorAxisX FloatSample SampleSin SampleCos memory out_vector rot_vector
          angle out_vector).z ^ 2
        = (memory rot_vector).x ^ 2 + (memory rot_vector).y ^ 2 + (memory rot_vector).z ^ 2) ∧
      ((RotateVectorAxisY FloatSample SampleSin SampleCos memory out_vector rot_vector angle
          out_vector).x ^ 2
        + (RotateVectorAxisY FloatSample SampleSin SampleCos memory out_vector rot_vector
          angle out_vector).y ^ 2
        + (RotateVectorAxisY FloatSample SampleSin SampleCos memory out_vector rot_vector
          angle out_vector).z ^ 2
        = (memory rot_vector).x ^ 2 + (memory rot_vector).y ^ 2 + (memory rot_vector).z ^ 2) ∧
      ((RotateVectorAxisZ FloatSample SampleSin SampleCos memory out_vector rot_vector angle
          out_vector).x ^ 2
        + (RotateVectorAxisZ FloatSample SampleSin SampleCos memory out_vector rot_vector
          angle out_vector).y ^ 2
        + (RotateVectorAxisZ FloatSample SampleSin SampleCos memory out_vector rot_vector
          angle out_vector).z ^ 2
        = (memory rot_vector).x ^ 2 + (memory rot_vector).y ^ 2
          + (memory rot_vector).z ^ 2) := by
  refine ⟨?_, ?_, ?_⟩
  · rw [RotateVectorAxisX_eq _ _ _ _ _ _ _ hne]
    linear_combination ((memory rot_vector).y ^ 2 + (memory rot_vector).z ^ 2) * hunit
  · rw [RotateVectorAxisY_eq _ _ _ _ _ _ _ hne]
    linear_combination ((memory rot_vector).x ^ 2 + (memory rot_vector).z ^ 2) * hunit
  · rw [RotateVectorAxisZ_eq _ _ _ _ _ _ _ hne]
    linear_combination ((memory rot_vector).x ^ 2 + (memory rot_vector).z ^ 2) * hunit

/-- C26 witness: output object at address 16, input (1,2,3) at address 32, of squared
length 14, sampled values sin = 3/5, cos = 4/5. -/
theorem RotateVectorAxis_preserves_squared_length_witness :
    (16 : Nat) ≠ 32 ∧ ((3 / 5 : ℚ) ^ 2 + (4 / 5 : ℚ) ^ 2 = 1) ∧
      (RotateVectorAxisX (1 : ℚ) (fun _ => 3 / 5) (fun _ => 4 / 5)
          (twoVectors ⟨0, 0, 0⟩ ⟨1, 2, 3⟩) 16 32 0 16).x ^ 2
        + (RotateVectorAxisX (1 : ℚ) (fun _ => 3 / 5) (fun _ => 4 / 5)
          (twoVectors ⟨0, 0, 0⟩ ⟨1, 2, 3⟩) 16 32 0 16).y ^ 2
        + (RotateVectorAxisX (1 : ℚ) (fun _ => 3 / 5) (fun _ => 4 / 5)
          (twoVectors ⟨0, 0, 0⟩ ⟨1, 2, 3⟩) 16 32 0 16).z ^ 2
        = 14 :=
  ⟨by decide, by norm_num,
    ((RotateVectorAxis_preserves_squared_length (1 : ℚ) (fun _ => 3 / 5) (fun _ => 4 / 5)
      (twoVectors ⟨0, 0, 0⟩ ⟨1, 2, 3⟩) 16 32 0 (by decide) (by norm_num)).1).trans
      (by norm_num [twoVectors])⟩

end dd.util.math
